import Mathlib

/-!
Verification of the data-access gateway's request lifecycle and SQL intent
engine against its specification.

The definitions below are a shallow embedding of the Python sources:

* `src/transformers/normalizers.py`  — `normalize_operator`
* `src/engine/builders.py`           — `_build_filter_expr`, `_combine_and`,
  `_combine_or`, `_build_aggregate_expr`, `build_select`, `build_insert`,
  `_build_plain_update`, `build_delete`
* `src/engine/models.py`             — `SelectIntent` and its pagination validator
* `src/engine/validators.py`         — `validate_select` etc.
* `src/security/validators.py`       — identifier / table-ref / mutation-safety checks
* `src/dispatcher/lifecycle.py`      — `_validate`, `process` error shaping
* `src/contracts/errors.py`          — `error_detail_from_exception`
* `src/handlers/write/single.py`     — rowcount-based success detection
* `src/handlers/transaction/multi_op.py` — empty-transaction fast path
* `src/infrastructure/rate_limit.py` — `SessionRateLimiter.check`
* `src/infrastructure/connection.py` — `ConnectionPool.get_connection`
* `src/infrastructure/warmup.py`     — `WarehouseWarmupGate.maybe_warm`
* `src/metadata/cache.py` / `schema.py` — the hybrid schema cache

Python dictionaries are modelled as association lists (first binding wins,
insertion order preserved), machine floats from `time.monotonic()` as
rationals, `datetime.now()` ticks as integers, and raised exceptions as
`Except` errors.  SQL strings are produced by a renderer that composes
sqlglot's Spark-dialect output with `_normalize_placeholders` (identifiers
in backticks, placeholders already in the driver form `%(name)s`).
-/

/-- Model of the Python values that flow through requests, filters and
parameters (`None`, ints, strings, bools, lists, dicts). -/
inductive PyValue where
  | none
  | int (n : Int)
  | str (s : String)
  | bool (b : Bool)
  | list (vs : List PyValue)
  | dict (kvs : List (String × PyValue))

/-- Python truthiness (`bool(v)`) for the modelled values. -/
def PyValue.truthy : PyValue → Bool
  | .none => false
  | .int n => n ≠ 0
  | .str s => s ≠ ""
  | .bool b => b
  | .list vs => !vs.isEmpty
  | .dict kvs => !kvs.isEmpty

/-- `d.get(k)` on a Python dict modelled as an association list. -/
def pyGet (d : List (String × PyValue)) (k : String) : Option PyValue :=
  (d.find? (fun e => e.1 = k)).map (·.2)

/-- `k in d` on a Python dict modelled as an association list. -/
def pyHasKey (d : List (String × PyValue)) (k : String) : Bool :=
  (pyGet d k).isSome

/-- Does `pat` occur as a contiguous substring of `s` (character lists)? -/
def subOccurs (pat : List Char) : List Char → Bool
  | [] => pat.isEmpty
  | c :: t => pat.isPrefixOf (c :: t) || subOccurs pat t

/-- Does `pat` occur as a contiguous substring of `s`? -/
def strOccurs (pat s : String) : Bool :=
  subOccurs pat.toList s.toList

/-- Structural model of Python's `str.upper()` for the ASCII strings that
flow through operators, function names and directions. -/
def asciiUpperChar (c : Char) : Char :=
  if 'a' ≤ c ∧ c ≤ 'z' then Char.ofNat (c.toNat - 32) else c

/-- `s.upper()` on an ASCII string. -/
def pyUpper (s : String) : String :=
  ⟨s.data.map asciiUpperChar⟩

/-! ## `src/transformers/normalizers.py` -/

/-- `normalize_operator(operator, value)`: adjusts a filter operator based on
value cardinality; an empty-list value degenerates to `IS NULL`, a one-item
list is unwrapped, a multi-item list turns `=`/`IN` into `IN` and
`!=`/`<>`/`NOT IN` into `NOT IN`. -/
def normalize_operator (operator : String) (value : PyValue) : String × PyValue :=
  let opUpper := pyUpper operator
  match value with
  | .list [] => ("IS NULL", PyValue.none)
  | .list [v] =>
      if opUpper = "=" || opUpper = "IN" then ("=", v)
      else if opUpper = "!=" || opUpper = "<>" || opUpper = "NOT IN" then ("!=", v)
      else (operator, v)
  | .list vs =>
      if opUpper = "=" || opUpper = "IN" then ("IN", .list vs)
      else if opUpper = "!=" || opUpper = "<>" || opUpper = "NOT IN" then ("NOT IN", .list vs)
      else (operator, .list vs)
  | v => (operator, v)

/-! ## SQL expression AST (the sqlglot `exp` nodes used by the engine) -/

/-- The sqlglot expression nodes constructed by `src/engine/builders.py`. -/
inductive SqlExpr where
  | column (name : String)
  | placeholder (name : String)
  | star
  | isNull (e : SqlExpr)
  | notE (e : SqlExpr)
  | inList (e : SqlExpr) (es : List SqlExpr)
  | between (e lo hi : SqlExpr)
  | like (l r : SqlExpr)
  | eq (l r : SqlExpr)
  | neq (l r : SqlExpr)
  | lt (l r : SqlExpr)
  | lte (l r : SqlExpr)
  | gt (l r : SqlExpr)
  | gte (l r : SqlExpr)
  | andE (l r : SqlExpr)
  | orE (l r : SqlExpr)
  | aggFn (fn : String) (arg : SqlExpr)
  | aliasE (e : SqlExpr) (a : String)
  | ordered (e : SqlExpr) (desc : Bool)

mutual

/-- Spark-dialect rendering of an expression, composed with the placeholder
normalisation pass (`:name` → `%(name)s`); identifiers are backtick-quoted
exactly as sqlglot renders `exp.to_identifier(_, quoted=True)`. -/
def SqlExpr.render : SqlExpr → String
  | .column name => "`" ++ name ++ "`"
  | .placeholder name => "%(" ++ name ++ ")s"
  | .star => "*"
  | .isNull e => e.render ++ " IS NULL"
  | .notE e => "NOT " ++ e.render
  | .inList e es => e.render ++ " IN (" ++ SqlExpr.renderList es ++ ")"
  | .between e lo hi => e.render ++ " BETWEEN " ++ lo.render ++ " AND " ++ hi.render
  | .like l r => l.render ++ " LIKE " ++ r.render
  | .eq l r => l.render ++ " = " ++ r.render
  | .neq l r => l.render ++ " <> " ++ r.render
  | .lt l r => l.render ++ " < " ++ r.render
  | .lte l r => l.render ++ " <= " ++ r.render
  | .gt l r => l.render ++ " > " ++ r.render
  | .gte l r => l.render ++ " >= " ++ r.render
  | .andE l r => l.render ++ " AND " ++ r.render
  | .orE l r => l.render ++ " OR " ++ r.render
  | .aggFn fn arg => fn ++ "(" ++ arg.render ++ ")"
  | .aliasE e a => e.render ++ " AS `" ++ a ++ "`"
  | .ordered e desc => e.render ++ (if desc then " DESC" else "")

/-- Comma-separated rendering of an expression list (sqlglot's
`expressions` joiner). -/
def SqlExpr.renderList : List SqlExpr → String
  | [] => ""
  | [e] => e.render
  | e :: rest => e.render ++ ", " ++ SqlExpr.renderList rest

end

/-! ## `src/engine/models.py` -/

/-- `FilterClause`: a single WHERE filter. -/
structure FilterClause where
  column : String
  op : String
  value : PyValue

/-- `OrderByClause`: a single ORDER BY directive. -/
structure OrderByClause where
  column : String
  direction : String := "ASC"

/-- `AggregateColumn`: an aggregate function applied to a column. -/
structure AggregateColumn where
  function : String
  column : String
  aliasName : Option String := Option.none

/-- `SelectIntent`: a simple SELECT with full pagination support.
`limit`/`offset` are Python ints (possibly absent). -/
structure SelectIntent where
  table : String
  columns : List String
  filters : List FilterClause := []
  group_by : List String := []
  aggregations : List AggregateColumn := []
  having : List FilterClause := []
  order_by : List OrderByClause := []
  limit : Option Int := Option.none
  offset : Option Int := Option.none

/-- `SelectIntent.is_wildcard`: is this a `SELECT *` query? -/
def SelectIntent.is_wildcard (it : SelectIntent) : Bool :=
  it.columns = ["*"]

/-- `SelectIntent._validate_pagination` (pydantic model validator): OFFSET
requires LIMIT, OFFSET must be ≥ 0, LIMIT must be > 0. -/
def SelectIntent.validate_pagination (it : SelectIntent) : Except String Unit :=
  if it.offset.isSome && it.limit.isNone then
    .error "OFFSET requires LIMIT to be specified"
  else if it.offset.any (fun o => o < 0) then
    .error "OFFSET must be >= 0"
  else if it.limit.any (fun l => l ≤ 0) then
    .error "LIMIT must be > 0"
  else
    .ok ()

/-! ## `src/engine/builders.py` — filter expressions -/

/-- `_build_filter_expr`: convert a filter clause into a sqlglot expression
with bind parameters, extending the parameter list (the Python code mutates a
`params` dict; here the updated list is returned).  `paramPre` is the Python
`param_prefix` argument. -/
def build_filter_expr (fc : FilterClause) (params : List (String × PyValue))
    (paramPre : String) (idx : Nat) :
    Except String (SqlExpr × List (String × PyValue)) :=
  let colExpr := SqlExpr.column fc.column
  let op := pyUpper fc.op
  let value := fc.value
  if op = "IS NULL" then
    .ok (.isNull colExpr, params)
  else if op = "IS NOT NULL" then
    .ok (.notE (.isNull colExpr), params)
  else if op = "IN" || op = "NOT IN" then
    let vs := match value with
      | .list vs => vs
      | v => [v]
    let entries := vs.enum.map (fun jv =>
      (paramPre ++ "_" ++ fc.column ++ "_" ++ toString idx ++ "_" ++ toString jv.1, jv.2))
    let inExpr := SqlExpr.inList colExpr (entries.map (fun e => SqlExpr.placeholder e.1))
    .ok (if op = "NOT IN" then .notE inExpr else inExpr, params ++ entries)
  else if op = "BETWEEN" then
    match value with
    | .list [lo, hi] =>
        let pLow := paramPre ++ "_" ++ fc.column ++ "_" ++ toString idx ++ "_low"
        let pHigh := paramPre ++ "_" ++ fc.column ++ "_" ++ toString idx ++ "_high"
        .ok (.between colExpr (.placeholder pLow) (.placeholder pHigh),
             params ++ [(pLow, lo), (pHigh, hi)])
    | _ => .error "BETWEEN requires a list/tuple of [low, high]"
  else if op = "LIKE" || op = "NOT LIKE" then
    let pName := paramPre ++ "_" ++ fc.column ++ "_" ++ toString idx
    let likeExpr := SqlExpr.like colExpr (.placeholder pName)
    .ok (if op = "NOT LIKE" then .notE likeExpr else likeExpr, params ++ [(pName, value)])
  else
    let pName := paramPre ++ "_" ++ fc.column ++ "_" ++ toString idx
    let ph := SqlExpr.placeholder pName
    let mk : Option (SqlExpr → SqlExpr → SqlExpr) :=
      if op = "=" then some .eq
      else if op = "!=" then some .neq
      else if op = "<>" then some .neq
      else if op = "<" then some .lt
      else if op = "<=" then some .lte
      else if op = ">" then some .gt
      else if op = ">=" then some .gte
      else Option.none
    match mk with
    | some f => .ok (f colExpr ph, params ++ [(pName, value)])
    | Option.none => .error ("Unsupported operator: " ++ fc.op)

/-- `_combine_and`: AND-combine a list of expressions (error on empty). -/
def combine_and : List SqlExpr → Except String SqlExpr
  | [] => .error "Cannot combine empty expression list"
  | e :: es => .ok (es.foldl (fun acc x => SqlExpr.andE acc x) e)

/-- `_combine_or`: OR-combine a list of expressions (error on empty). -/
def combine_or : List SqlExpr → Except String SqlExpr
  | [] => .error "Cannot combine empty expression list"
  | e :: es => .ok (es.foldl (fun acc x => SqlExpr.orE acc x) e)

/-- `_build_aggregate_expr`: build an aggregate function expression,
optionally aliased; rejects unknown functions. -/
def build_aggregate_expr (agg : AggregateColumn) : Except String SqlExpr :=
  let fnUpper := pyUpper agg.function
  if fnUpper = "COUNT" || fnUpper = "SUM" || fnUpper = "AVG" ||
      fnUpper = "MIN" || fnUpper = "MAX" then
    let arg := if agg.column = "*" then SqlExpr.star else SqlExpr.column agg.column
    let fnExpr := SqlExpr.aggFn fnUpper arg
    match agg.aliasName with
    | some a => .ok (.aliasE fnExpr a)
    | Option.none => .ok fnExpr
  else
    .error ("Unsupported aggregate function: " ++ agg.function)

/-! ## `src/engine/builders.py` — SELECT builder -/

/-- The engine settings consulted by the builders
(`src/engine/config.py` → `src/infrastructure/config.py`). -/
structure EngineSettings where
  default_read_limit : Int
  max_read_limit : Int

/-- The sqlglot `Select` object assembled by `build_select`
(projections, FROM, WHERE, GROUP BY, HAVING, ORDER BY, LIMIT, OFFSET). -/
structure SelectQuery where
  projections : List SqlExpr
  fromTable : String
  whereClause : Option SqlExpr
  groupBy : List SqlExpr
  havingClause : Option SqlExpr
  orderBy : List SqlExpr
  limit : Int
  offset : Option Int

/-- Thread the filter list through `_build_filter_expr`, numbering filters
from `i` (the Python `enumerate` loop). -/
def build_filter_list (paramPre : String) :
    Nat → List FilterClause → List (String × PyValue) →
    Except String (List SqlExpr × List (String × PyValue))
  | _, [], params => .ok ([], params)
  | i, f :: rest, params => do
      let (e, params1) ← build_filter_expr f params paramPre i
      let (es, params2) ← build_filter_list paramPre (i + 1) rest params1
      .ok (e :: es, params2)

/-- `build_select`: build a SELECT statement from a validated `SelectIntent`.
Returns the assembled query object and the bind parameters; the SQL string
is produced by `renderSelect` below. -/
def build_select (settings : EngineSettings) (intent : SelectIntent) :
    Except String (SelectQuery × List (String × PyValue)) :=
  let baseProj :=
    if intent.is_wildcard then [SqlExpr.star]
    else intent.columns.map SqlExpr.column
  match intent.aggregations.mapM build_aggregate_expr with
  | .error e => .error e
  | .ok aggs =>
  match build_filter_list "p" 0 intent.filters [] with
  | .error e => .error e
  | .ok (whereParts, params1) =>
  match (match intent.filters with
         | [] => Except.ok Option.none
         | _ :: _ => (combine_and whereParts).map some) with
  | .error e => .error e
  | .ok whereClause =>
  match build_filter_list "h" 0 intent.having params1 with
  | .error e => .error e
  | .ok (havingParts, params2) =>
  match (match intent.having with
         | [] => Except.ok Option.none
         | _ :: _ => (combine_and havingParts).map some) with
  | .error e => .error e
  | .ok havingClause =>
  let orderBy := intent.order_by.map (fun ob =>
    SqlExpr.ordered (SqlExpr.column ob.column) (pyUpper ob.direction = "DESC"))
  let limit0 := match intent.limit with
    | some l => l
    | Option.none => settings.default_read_limit
  let limit := min limit0 settings.max_read_limit
  .ok ({ projections := baseProj ++ aggs
         fromTable := intent.table
         whereClause := whereClause
         groupBy := intent.group_by.map SqlExpr.column
         havingClause := havingClause
         orderBy := orderBy
         limit := limit
         offset := intent.offset }, params2)

/-- Render the assembled SELECT in sqlglot's Spark output order, with
placeholders already normalised to `%(name)s`. -/
def renderSelect (q : SelectQuery) : String :=
  "SELECT " ++ String.intercalate ", " (q.projections.map SqlExpr.render)
    ++ " FROM " ++ q.fromTable
    ++ (match q.whereClause with
        | some w => " WHERE " ++ w.render
        | Option.none => "")
    ++ (if q.groupBy.isEmpty then ""
        else " GROUP BY " ++ String.intercalate ", " (q.groupBy.map SqlExpr.render))
    ++ (match q.havingClause with
        | some h => " HAVING " ++ h.render
        | Option.none => "")
    ++ (if q.orderBy.isEmpty then ""
        else " ORDER BY " ++ String.intercalate ", " (q.orderBy.map SqlExpr.render))
    ++ " LIMIT " ++ toString q.limit
    ++ (match q.offset with
        | some o => " OFFSET " ++ toString o
        | Option.none => "")

/-! ## Helper lemmas for the SELECT limit claim -/

/-- Any successful `build_select` produces a query whose LIMIT is the
requested (or default) limit capped at the configured maximum, and whose
OFFSET is the intent's offset. -/
theorem build_select_ok_shape (settings : EngineSettings) (intent : SelectIntent)
    (q : SelectQuery) (params : List (String × PyValue))
    (hq : build_select settings intent = Except.ok (q, params)) :
    q.limit = min (intent.limit.getD settings.default_read_limit) settings.max_read_limit ∧
    q.offset = intent.offset := by
  revert hq
  unfold build_select
  rcases intent.aggregations.mapM build_aggregate_expr with e | aggs <;> try dsimp only [Except.map]
  · intro hq; simp at hq
  rcases build_filter_list "p" 0 intent.filters [] with e | ⟨whereParts, params1⟩ <;> try dsimp only [Except.map]
  · intro hq; simp at hq
  rcases intent.filters with _ | ⟨f0, fs⟩ <;> try dsimp only [Except.map]
  · rcases build_filter_list "h" 0 intent.having params1 with e | ⟨havingParts, params2⟩ <;> try dsimp only [Except.map]
    · intro hq; simp at hq
    · rcases intent.having with _ | ⟨h0, hs⟩ <;> try dsimp only [Except.map]
      · intro hq
        simp only [Except.ok.injEq, Prod.mk.injEq] at hq
        obtain ⟨h1, h2⟩ := hq
        rw [← h1]
        constructor
        · cases hl : intent.limit <;> simp [hl]
        · rfl
      · rcases combine_and havingParts with e | hv <;> try dsimp only [Except.map]
        · intro hq; simp at hq
        · intro hq
          simp only [Except.map, Except.ok.injEq, Prod.mk.injEq] at hq
          obtain ⟨h1, h2⟩ := hq
          rw [← h1]
          constructor
          · cases hl : intent.limit <;> simp [hl]
          · rfl
  · rcases combine_and whereParts with e | w <;> try dsimp only [Except.map]
    · intro hq; simp at hq
    · rcases build_filter_list "h" 0 intent.having params1 with e | ⟨havingParts, params2⟩ <;> try dsimp only [Except.map]
      · intro hq; simp at hq
      · rcases intent.having with _ | ⟨h0, hs⟩ <;> try dsimp only [Except.map]
        · intro hq
          simp only [Except.map, Except.ok.injEq, Prod.mk.injEq] at hq
          obtain ⟨h1, h2⟩ := hq
          rw [← h1]
          constructor
          · cases hl : intent.limit <;> simp [hl]
          · rfl
        · rcases combine_and havingParts with e | hv <;> try dsimp only [Except.map]
          · intro hq; simp at hq
          · intro hq
            simp only [Except.map, Except.ok.injEq, Prod.mk.injEq] at hq
            obtain ⟨h1, h2⟩ := hq
            rw [← h1]
            constructor
            · cases hl : intent.limit <;> simp [hl]
            · rfl

/-- C1: intended behaviour per the spec — `normalize_operator` degenerates an
empty-list `=`/`IN` filter to an always-false `IS NULL`; but that normaliser
is dead code (never imported), and the engine's own `_build_filter_expr`,
given an `IN` filter whose value is the empty list, emits a malformed
empty `IN ()` fragment with no parameters, not an `IS NULL` test. -/
theorem empty_list_filter_emits_empty_in_not_is_null :
    normalize_operator "IN" (PyValue.list []) = ("IS NULL", PyValue.none)
    ∧ normalize_operator "=" (PyValue.list []) = ("IS NULL", PyValue.none)
    ∧ build_filter_expr ⟨"status", "IN", PyValue.list []⟩ [] "p" 0
        = Except.ok (SqlExpr.inList (SqlExpr.column "status") [], [])
    ∧ (build_select ⟨1000, 10000⟩
         { table := "cat.sch.tbl", columns := ["*"],
           filters := [⟨"status", "IN", PyValue.list []⟩] }).map
        (fun r => renderSelect r.1)
      = Except.ok "SELECT * FROM cat.sch.tbl WHERE `status` IN () LIMIT 1000"
    ∧ strOccurs "IN ()" "SELECT * FROM cat.sch.tbl WHERE `status` IN () LIMIT 1000" = true
    ∧ strOccurs "IS NULL" "SELECT * FROM cat.sch.tbl WHERE `status` IN () LIMIT 1000" = false :=
  ⟨rfl, rfl, by rfl, by rfl, by rfl, by rfl⟩

/-- C3: every SELECT built from a validation-accepted intent carries a LIMIT
equal to `min(requested-or-default, max_read_limit)`, the rendered SQL
contains that LIMIT clause, and an intent with an offset but no limit is
rejected by validation (so an emitted OFFSET always comes with a LIMIT). -/
theorem build_select_limit_policy (settings : EngineSettings) (intent : SelectIntent)
    (q : SelectQuery) (params : List (String × PyValue))
    (hvalid : intent.validate_pagination = Except.ok ())
    (hq : build_select settings intent = Except.ok (q, params)) :
    q.limit = min (intent.limit.getD settings.default_read_limit) settings.max_read_limit
    ∧ (∃ pre post : String,
        renderSelect q = pre ++ " LIMIT " ++
          toString (min (intent.limit.getD settings.default_read_limit)
            settings.max_read_limit) ++ post)
    ∧ (intent.offset.isSome → intent.limit.isSome) := by
  obtain ⟨hlim, hoff⟩ := build_select_ok_shape settings intent q params hq
  refine ⟨hlim, ?_, ?_⟩
  · refine ⟨"SELECT " ++ String.intercalate ", " (q.projections.map SqlExpr.render)
      ++ " FROM " ++ q.fromTable
      ++ (match q.whereClause with
          | some w => " WHERE " ++ w.render
          | Option.none => "")
      ++ (if q.groupBy.isEmpty then ""
          else " GROUP BY " ++ String.intercalate ", " (q.groupBy.map SqlExpr.render))
      ++ (match q.havingClause with
          | some h => " HAVING " ++ h.render
          | Option.none => "")
      ++ (if q.orderBy.isEmpty then ""
          else " ORDER BY " ++ String.intercalate ", " (q.orderBy.map SqlExpr.render)),
      (match q.offset with
       | some o => " OFFSET " ++ toString o
       | Option.none => ""), ?_⟩
    rw [renderSelect, hlim]
  · intro hs
    by_contra hnot
    have hnone : intent.limit = Option.none := by
      cases hl : intent.limit
      · rfl
      · rw [hl] at hnot; simp at hnot
    unfold SelectIntent.validate_pagination at hvalid
    rw [hnone] at hvalid
    simp [hs] at hvalid

/-- Witness for C3 at a concrete intent (limit 50000 capped to 10000,
offset 5). -/
theorem build_select_limit_policy_witness :
    ((⟨"c.s.t", ["*"], [], [], [], [], [], some 50000, some 5⟩ :
        SelectIntent).validate_pagination = Except.ok ())
    ∧ (build_select ⟨1000, 10000⟩
        (⟨"c.s.t", ["*"], [], [], [], [], [], some 50000, some 5⟩ : SelectIntent)
      = Except.ok ((⟨[SqlExpr.star], "c.s.t", Option.none, [], Option.none, [],
          10000, some 5⟩ : SelectQuery), []))
    ∧ ((⟨[SqlExpr.star], "c.s.t", Option.none, [], Option.none, [],
          10000, some 5⟩ : SelectQuery).limit
        = min (((⟨"c.s.t", ["*"], [], [], [], [], [], some 50000, some 5⟩ :
            SelectIntent).limit).getD 1000) 10000
       ∧ (∃ pre post : String,
          renderSelect (⟨[SqlExpr.star], "c.s.t", Option.none, [], Option.none, [],
            10000, some 5⟩ : SelectQuery) = pre ++ " LIMIT " ++
            toString (min (((⟨"c.s.t", ["*"], [], [], [], [], [], some 50000, some 5⟩ :
              SelectIntent).limit).getD 1000) 10000) ++ post)
       ∧ ((⟨"c.s.t", ["*"], [], [], [], [], [], some 50000, some 5⟩ :
            SelectIntent).offset.isSome →
          (⟨"c.s.t", ["*"], [], [], [], [], [], some 50000, some 5⟩ :
            SelectIntent).limit.isSome)) :=
  ⟨rfl, by rfl, build_select_limit_policy ⟨1000, 10000⟩ _ _ _ rfl (by rfl)⟩

/-! ## `src/contracts/enums.py`, `exceptions.py`, `errors.py`, `responses.py` -/

/-- `ErrorCategory`: typed error categories for programmatic UI handling. -/
inductive ErrorCategory where
  | VALIDATION | AUTHENTICATION | AUTHORIZATION | SECURITY | NOT_FOUND
  | CONFLICT | CONNECTION | TIMEOUT | THROTTLE | ADMISSION | UNKNOWN
deriving DecidableEq, Repr

/-- The Python exception hierarchy of `src/contracts/exceptions.py`: every
`OperationError` subclass carries a user-safe message and an internal
message; `otherExc` stands for any non-`OperationError` exception and
carries only its type name. -/
inductive PyExc where
  | validationError (userMsg internalMsg : String)
  | securityError (userMsg internalMsg : String)
  | connectionError (userMsg internalMsg : String)
  | timeoutError (userMsg internalMsg : String)
  | throttleError (userMsg internalMsg : String)
  | admissionError (userMsg internalMsg : String)
  | notFoundError (userMsg internalMsg : String)
  | conflictError (userMsg internalMsg : String)
  | authenticationError (userMsg internalMsg : String)
  | authorizationError (userMsg internalMsg : String)
  | tokenExpiredError (userMsg internalMsg : String)
  | queryExecutionError (userMsg internalMsg : String)
  | metadataAccessError (userMsg internalMsg : String)
  | otherExc (typeName : String)

/-- `type(exc).__name__`. -/
def PyExc.typeName : PyExc → String
  | .validationError .. => "ValidationError"
  | .securityError .. => "SecurityError"
  | .connectionError .. => "ConnectionError"
  | .timeoutError .. => "TimeoutError"
  | .throttleError .. => "ThrottleError"
  | .admissionError .. => "AdmissionError"
  | .notFoundError .. => "NotFoundError"
  | .conflictError .. => "ConflictError"
  | .authenticationError .. => "AuthenticationError"
  | .authorizationError .. => "AuthorizationError"
  | .tokenExpiredError .. => "TokenExpiredError"
  | .queryExecutionError .. => "QueryExecutionError"
  | .metadataAccessError .. => "MetadataAccessError"
  | .otherExc n => n

/-- `exc.user_message` when the exception is an `OperationError`. -/
def PyExc.userMessage? : PyExc → Option String
  | .validationError u _ => some u
  | .securityError u _ => some u
  | .connectionError u _ => some u
  | .timeoutError u _ => some u
  | .throttleError u _ => some u
  | .admissionError u _ => some u
  | .notFoundError u _ => some u
  | .conflictError u _ => some u
  | .authenticationError u _ => some u
  | .authorizationError u _ => some u
  | .tokenExpiredError u _ => some u
  | .queryExecutionError u _ => some u
  | .metadataAccessError u _ => some u
  | .otherExc _ => Option.none

/-- Replace the internal (log-only) message of an exception, leaving the
user-safe data untouched. -/
def PyExc.setInternal : PyExc → String → PyExc
  | .validationError u _, i => .validationError u i
  | .securityError u _, i => .securityError u i
  | .connectionError u _, i => .connectionError u i
  | .timeoutError u _, i => .timeoutError u i
  | .throttleError u _, i => .throttleError u i
  | .admissionError u _, i => .admissionError u i
  | .notFoundError u _, i => .notFoundError u i
  | .conflictError u _, i => .conflictError u i
  | .authenticationError u _, i => .authenticationError u i
  | .authorizationError u _, i => .authorizationError u i
  | .tokenExpiredError u _, i => .tokenExpiredError u i
  | .queryExecutionError u _, i => .queryExecutionError u i
  | .metadataAccessError u _, i => .metadataAccessError u i
  | .otherExc n, _ => .otherExc n

/-- `_category_from_exception`: the isinstance chain of
`src/contracts/errors.py` (token expiry is a sub-kind of authentication;
query-execution and metadata-access failures fall through to UNKNOWN). -/
def categoryFromException : PyExc → ErrorCategory
  | .validationError .. => .VALIDATION
  | .securityError .. => .SECURITY
  | .authorizationError .. => .AUTHORIZATION
  | .authenticationError .. => .AUTHENTICATION
  | .tokenExpiredError .. => .AUTHENTICATION
  | .notFoundError .. => .NOT_FOUND
  | .conflictError .. => .CONFLICT
  | .connectionError .. => .CONNECTION
  | .timeoutError .. => .TIMEOUT
  | .throttleError .. => .THROTTLE
  | .admissionError .. => .ADMISSION
  | .queryExecutionError .. => .UNKNOWN
  | .metadataAccessError .. => .UNKNOWN
  | .otherExc _ => .UNKNOWN

/-- `OperationErrorDetail`: typed error detail returned to the UI. -/
structure OperationErrorDetail where
  category : ErrorCategory
  code : String
  message : String
  fieldName : Option String := Option.none

/-- `error_detail_from_exception`: map an exception to a typed, user-safe
error detail — the message is the user message for an `OperationError`,
otherwise `System Error: <type name>`; the internal message never flows in. -/
def error_detail_from_exception (e : PyExc) : OperationErrorDetail :=
  { category := categoryFromException e
    code := e.typeName
    message := match e.userMessage? with
      | some u => u
      | Option.none => "System Error: " ++ e.typeName
    fieldName := Option.none }

/-- `OperationResponse`: the universal response object (metadata modelled as
a string-valued association list holding the correlation id). -/
structure OperationResponseM where
  success : Bool
  data : Option PyValue := Option.none
  affected_rows : Int := 0
  message : String := ""
  errors : List OperationErrorDetail := []
  metadata : List (String × String) := []

/-! ## `src/dispatcher/lifecycle.py` — process and error shaping -/

/-- The outcome of each lifecycle stage for one request, as `process` sees
them: each fallible stage either succeeds or raises.  `executeAndShape`
bundles EXECUTE and SHAPE (both run inside the same `try`). -/
structure LifecycleRun where
  validate : Except PyExc Unit
  throttle : Except PyExc Unit
  authenticate : Except PyExc Unit
  route : Except PyExc Unit
  needsAdmission : Bool
  admissionOk : Bool
  executeAndShape : Except PyExc OperationResponseM

/-- The body of `RequestLifecycle.process`'s `try` block: run VALIDATE,
THROTTLE, AUTHN, ROUTE in order, raise `AdmissionError` when the admission
gate is full, then EXECUTE + SHAPE.  (WARMUP and RESOLVE swallow their own
failures and so are infallible here.) -/
def lifecyclePipeline (r : LifecycleRun) : Except PyExc OperationResponseM :=
  match r.validate with
  | .error e => .error e
  | .ok _ =>
  match r.throttle with
  | .error e => .error e
  | .ok _ =>
  match r.authenticate with
  | .error e => .error e
  | .ok _ =>
  match r.route with
  | .error e => .error e
  | .ok _ =>
  if r.needsAdmission && !r.admissionOk then
    .error (.admissionError
      "Server is busy — too many concurrent queries. Please retry shortly."
      "Admission gate full")
  else r.executeAndShape

/-- `RequestLifecycle._error_response`. -/
def error_response (e : PyExc) (corrId : String) : OperationResponseM :=
  { success := false
    message := (error_detail_from_exception e).message
    errors := [error_detail_from_exception e]
    metadata := [("correlation_id", corrId)] }

/-- `RequestLifecycle.process`: any exception from any phase is caught and
shaped into an `OperationResponse`; the function is total (never raises). -/
def RequestLifecycle.process (r : LifecycleRun) (corrId : String) : OperationResponseM :=
  match lifecyclePipeline r with
  | .ok resp => resp
  | .error e => error_response e corrId

/-- `OperationManager.execute`: builds the execution context (which may
itself raise, `pre = error`) and delegates to the lifecycle; its own
`except` catches anything raised before the lifecycle starts. -/
def OperationManager.execute (pre : Except PyExc LifecycleRun) (corrId : String) :
    OperationResponseM :=
  match pre with
  | .ok r => RequestLifecycle.process r corrId
  | .error e => error_response e corrId

/-- C2: whenever any lifecycle phase raises, `process` returns (never
propagates) a response with `success = false`, `data = null`,
`affected_rows = 0`, `errors[0]` carrying the category and code mapped from
the exception, and `message` equal to the user-safe message (`System Error:
<type>` for non-`OperationError`); the detail is invariant under the
exception's internal message, and `OperationManager.execute` returns the
same response. -/
theorem lifecycle_process_error_envelope (r : LifecycleRun) (corr : String) (e : PyExc)
    (h : lifecyclePipeline r = Except.error e) :
    RequestLifecycle.process r corr =
      { success := false, data := Option.none, affected_rows := 0,
        message := (error_detail_from_exception e).message,
        errors := [error_detail_from_exception e],
        metadata := [("correlation_id", corr)] }
    ∧ (error_detail_from_exception e).category = categoryFromException e
    ∧ (error_detail_from_exception e).code = e.typeName
    ∧ (∀ u, e.userMessage? = some u → (error_detail_from_exception e).message = u)
    ∧ (e.userMessage? = Option.none →
        (error_detail_from_exception e).message = "System Error: " ++ e.typeName)
    ∧ (∀ internal, error_detail_from_exception (e.setInternal internal)
        = error_detail_from_exception e)
    ∧ OperationManager.execute (Except.ok r) corr = RequestLifecycle.process r corr := by
  refine ⟨?_, rfl, rfl, ?_, ?_, ?_, rfl⟩
  · unfold RequestLifecycle.process
    rw [h]
    rfl
  · intro u hu
    cases e <;> simp_all [PyExc.userMessage?, error_detail_from_exception]
  · intro hu
    cases e <;> simp_all [PyExc.userMessage?, error_detail_from_exception]
  · intro internal
    cases e <;> rfl

/-- Witness for C2: a validation failure in the VALIDATE phase is shaped
into the typed error envelope. -/
theorem lifecycle_process_error_envelope_witness :
    (lifecyclePipeline
        { validate := Except.error (PyExc.validationError "Invalid options" "request.options must be a dict"),
          throttle := Except.ok (), authenticate := Except.ok (), route := Except.ok (),
          needsAdmission := true, admissionOk := true,
          executeAndShape := Except.ok { success := true } }
      = Except.error (PyExc.validationError "Invalid options" "request.options must be a dict"))
    ∧ (RequestLifecycle.process
        { validate := Except.error (PyExc.validationError "Invalid options" "request.options must be a dict"),
          throttle := Except.ok (), authenticate := Except.ok (), route := Except.ok (),
          needsAdmission := true, admissionOk := true,
          executeAndShape := Except.ok { success := true } } "corr-1"
      = { success := false, data := Option.none, affected_rows := 0,
          message := (error_detail_from_exception
            (PyExc.validationError "Invalid options" "request.options must be a dict")).message,
          errors := [error_detail_from_exception
            (PyExc.validationError "Invalid options" "request.options must be a dict")],
          metadata := [("correlation_id", "corr-1")] }
        ∧ (error_detail_from_exception
            (PyExc.validationError "Invalid options" "request.options must be a dict")).category
          = categoryFromException (PyExc.validationError "Invalid options" "request.options must be a dict")
        ∧ (error_detail_from_exception
            (PyExc.validationError "Invalid options" "request.options must be a dict")).code
          = (PyExc.validationError "Invalid options" "request.options must be a dict").typeName
        ∧ (∀ u, (PyExc.validationError "Invalid options" "request.options must be a dict").userMessage? = some u →
            (error_detail_from_exception (PyExc.validationError "Invalid options" "request.options must be a dict")).message = u)
        ∧ ((PyExc.validationError "Invalid options" "request.options must be a dict").userMessage? = Option.none →
            (error_detail_from_exception (PyExc.validationError "Invalid options" "request.options must be a dict")).message
              = "System Error: " ++ (PyExc.validationError "Invalid options" "request.options must be a dict").typeName)
        ∧ (∀ internal, error_detail_from_exception
            ((PyExc.validationError "Invalid options" "request.options must be a dict").setInternal internal)
            = error_detail_from_exception (PyExc.validationError "Invalid options" "request.options must be a dict"))
        ∧ OperationManager.execute (Except.ok
            { validate := Except.error (PyExc.validationError "Invalid options" "request.options must be a dict"),
              throttle := Except.ok (), authenticate := Except.ok (), route := Except.ok (),
              needsAdmission := true, admissionOk := true,
              executeAndShape := Except.ok { success := true } }) "corr-1"
          = RequestLifecycle.process
            { validate := Except.error (PyExc.validationError "Invalid options" "request.options must be a dict"),
              throttle := Except.ok (), authenticate := Except.ok (), route := Except.ok (),
              needsAdmission := true, admissionOk := true,
              executeAndShape := Except.ok { success := true } } "corr-1") :=
  ⟨rfl, lifecycle_process_error_envelope _ "corr-1" _ rfl⟩

/-! ## `src/contracts/enums.py` and `requests.py` -/

/-- `OperationType`. -/
inductive OperationType where
  | READ | INSERT | UPDATE | MERGE | DELETE | HEARTBEAT | TRANSACTION | SCHEMA
deriving DecidableEq, Repr

/-- `ProcessingMode`. -/
inductive ProcessingMode where
  | SINGLE | BATCH | NAMED
deriving DecidableEq, Repr

/-- A transaction sub-operation (an `OperationRequest` nested in
`request.operations`; only the fields the transaction path reads). -/
structure SubRequest where
  operation : OperationType
  table : String
  payload : PyValue := PyValue.dict []
  mode : ProcessingMode := ProcessingMode.SINGLE
  whereV : PyValue := PyValue.none
  options : List (String × PyValue) := []

/-- `OperationRequest` (Python `None` is `PyValue.none` for `payload`, and
`Option.none` for the optional typed fields; `where` is `whereV`). -/
structure OperationRequestM where
  operation : OperationType
  table : String
  payload : PyValue := PyValue.dict []
  mode : ProcessingMode := ProcessingMode.SINGLE
  columns : Option (List String) := Option.none
  whereV : PyValue := PyValue.none
  options : List (String × PyValue) := []
  operations : Option (List SubRequest) := Option.none
  scenKind : Option String := Option.none
  catalog : Option String := Option.none
  schema_name : Option String := Option.none

/-! ## `src/security/validators.py` -/

/-- One character of `[a-zA-Z0-9_]`. -/
def isIdentChar (c : Char) : Bool :=
  c.isAlpha || c.isDigit || c = '_'

/-- The identifier regex `^[a-zA-Z_][a-zA-Z0-9_]*$`. -/
def isIdentifier (s : String) : Bool :=
  match s.data with
  | [] => false
  | c :: cs => (c.isAlpha || c = '_') && cs.all isIdentChar

/-- Split a character list at the dots (`str.split('.')`). -/
def splitDots : List Char → List (List Char)
  | [] => [[]]
  | c :: cs =>
    match splitDots cs with
    | [] => [[]]
    | g :: gs => if c = '.' then [] :: g :: gs else (c :: g) :: gs

/-- `validate_table_name` / the table-ref regex
`^id\.id\.id$` (three dot-separated identifiers). -/
def validate_table_name (table : String) : Except PyExc Unit :=
  match (splitDots table.data).map (fun g => String.mk g) with
  | [a, b, c] =>
      if isIdentifier a && isIdentifier b && isIdentifier c then .ok ()
      else .error (.validationError "Invalid table reference"
        ("Must be catalog.schema.table, got: " ++ table))
  | _ => .error (.validationError "Invalid table reference"
      ("Must be catalog.schema.table, got: " ++ table))

/-- `quote_identifier`: backtick-quote after the identifier check. -/
def quote_identifier (name : String) : Except PyExc String :=
  if name ≠ "" && isIdentifier name then .ok ("`" ++ name ++ "`")
  else .error (.validationError "Invalid identifier"
    ("Invalid identifier pattern: " ++ name))

/-- The per-column loop of `validate_columns` (`"*"` is allowed). -/
def validate_columns_list : List String → Except PyExc Unit
  | [] => .ok ()
  | c :: rest =>
    if c = "*" then validate_columns_list rest
    else match quote_identifier c with
      | .error e => .error e
      | .ok _ => validate_columns_list rest

/-- `validate_columns` (a `None` or empty list is skipped). -/
def validate_columns (columns : Option (List String)) : Except PyExc Unit :=
  match columns with
  | some (c :: rest) => validate_columns_list (c :: rest)
  | _ => .ok ()

/-- Is the value a non-empty Python dict? -/
def pyIsNonemptyDict : PyValue → Bool
  | .dict kvs => !kvs.isEmpty
  | _ => false

/-- `validate_mutation_safety`: INSERT needs a non-empty payload, UPDATE and
MERGE a non-empty payload and where, DELETE a non-empty where; all other
operations pass. -/
def validate_mutation_safety (operation : OperationType) (payload : PyValue)
    (whereV : PyValue) : Except PyExc Unit :=
  let payloadOk := pyIsNonemptyDict payload
  let whereOk := pyIsNonemptyDict whereV
  match operation with
  | .INSERT =>
    if payloadOk then .ok ()
    else .error (.validationError "Missing values" "INSERT operation requires a non-empty payload")
  | .UPDATE =>
    if !payloadOk then
      .error (.validationError "Missing values" "UPDATE operation requires a non-empty payload")
    else if !whereOk then
      .error (.validationError "Missing identifier" "UPDATE operation requires a non-empty where clause")
    else .ok ()
  | .MERGE =>
    if !payloadOk then
      .error (.validationError "Missing values" "MERGE operation requires a non-empty payload")
    else if !whereOk then
      .error (.validationError "Missing identifier" "MERGE operation requires a non-empty where clause (match keys)")
    else .ok ()
  | .DELETE =>
    if pyIsNonemptyDict whereV then .ok ()
    else .error (.validationError "Missing identifier" "DELETE operation requires a non-empty where clause")
  | _ => .ok ()

/-! ## `src/dispatcher/lifecycle.py` — the VALIDATE stage -/

/-- The settings consulted by validation. -/
structure LifecycleSettings where
  max_batch_size : Nat
  max_transaction_statements : Nat

/-- Truthiness of an optional string (`None` and `""` are falsy). -/
def optStrTruthy : Option String → Bool
  | some s => s ≠ ""
  | Option.none => false

/-- Is the string empty after `str.strip()`? -/
def strBlank (s : String) : Bool :=
  s.data.all (fun c => c.isWhitespace)

/-- `RequestLifecycle._validate_schema_request`. -/
def validate_schema_request (req : OperationRequestM) : Except PyExc Unit :=
  match req.scenKind with
  | Option.none =>
    .error (.validationError "Missing schema scenario" "SCHEMA operation requires request.scenario")
  | some sv =>
    if sv = "list_schemas" && !optStrTruthy req.catalog then
      .error (.validationError "Missing catalog" "Missing catalog")
    else if sv = "list_tables" && (!optStrTruthy req.catalog || !optStrTruthy req.schema_name) then
      .error (.validationError "Missing catalog/schema" "Missing catalog/schema")
    else if sv = "table_columns" || sv = "table_info" || sv = "invalidate_table_schema" then
      if req.table = "" then
        .error (.validationError "Missing table" "Missing table")
      else validate_table_name req.table
    else .ok ()

/-- The per-sub-operation loop of `_validate_transaction_request`. -/
def validate_tx_subops : List SubRequest → Except PyExc Unit
  | [] => .ok ()
  | sub :: rest =>
    if sub.operation = .TRANSACTION then
      .error (.validationError "Nested transactions are not supported" "Nested transaction")
    else if sub.mode ≠ .SINGLE then
      .error (.validationError "Transaction sub-operations must use SINGLE mode" "Sub-op mode")
    else
      match sub.payload with
      | .dict _ =>
        if sub.operation = .INSERT || sub.operation = .UPDATE ||
            sub.operation = .MERGE || sub.operation = .DELETE then
          match validate_table_name sub.table with
          | .error e => .error e
          | .ok _ =>
            match validate_mutation_safety sub.operation sub.payload sub.whereV with
            | .error e => .error e
            | .ok _ => validate_tx_subops rest
        else
          .error (.validationError "Unsupported operation in transaction" "Sub-op operation")
      | _ =>
        .error (.validationError "Transaction sub-operations require dict payloads" "Sub-op payload must be a dict")

/-- `RequestLifecycle._validate_transaction_request`. -/
def validate_transaction_request (settings : LifecycleSettings) (req : OperationRequestM) :
    Except PyExc Unit :=
  if req.mode ≠ .SINGLE then
    .error (.validationError "Transaction wrapper mode must be SINGLE" "Transaction wrapper mode")
  else
    match req.operations with
    | Option.none =>
      .error (.validationError "Missing transaction operations" "TRANSACTION requires request.operations")
    | some ops =>
      if ops.length > settings.max_transaction_statements then
        .error (.validationError "Transaction has too many operations"
          ("operations length " ++ toString ops.length ++ " exceeds max_transaction_statements=" ++
            toString settings.max_transaction_statements))
      else validate_tx_subops ops

/-- The per-record dict check of batch-mutation validation. -/
def batch_records_all_dicts : List PyValue → Bool
  | [] => true
  | r :: rest =>
    match r with
    | .dict _ => batch_records_all_dicts rest
    | _ => false

/-- The per-entry check of a batch UPDATE/MERGE `where` list. -/
def batch_where_entries_ok : List PyValue → Bool
  | [] => true
  | w :: rest => pyIsNonemptyDict w && batch_where_entries_ok rest

/-- `RequestLifecycle._validate`: structural and operation-specific request
validation.  The `isinstance` checks on `request`, `operation`, `mode` and
`options` are vacuous under the typed embedding (`options` is a dict by
construction); note that no check inspects the *keys* of `options`. -/
def RequestLifecycle.validate (settings : LifecycleSettings) (req : OperationRequestM) :
    Except PyExc Unit :=
  match req.operation with
  | .SCHEMA => validate_schema_request req
  | .HEARTBEAT => .ok ()
  | .TRANSACTION => validate_transaction_request settings req
  | _ =>
    if req.operation = .READ && req.mode = .NAMED then
      if strBlank req.table then
        .error (.validationError "Missing query name" "READ/NAMED uses request.table as manifest key")
      else
        match req.whereV with
        | .none => .ok ()
        | .dict _ => .ok ()
        | _ => .error (.validationError "Invalid parameters"
            "Named query parameters must be provided in request.where as a dict")
    else if req.mode = .BATCH then
      match validate_table_name req.table with
      | .error e => .error e
      | .ok _ =>
      match validate_columns req.columns with
      | .error e => .error e
      | .ok _ =>
      if req.operation = .READ then
        match req.payload with
        | .list records =>
          if records.length > settings.max_batch_size then
            .error (.validationError "Batch size exceeds limit"
              ("Batch size " ++ toString records.length ++ " exceeds max_batch_size=" ++
                toString settings.max_batch_size))
          else .ok ()
        | p =>
          if p.truthy then
            .error (.validationError "Invalid payload" "BATCH READ requires list payload (list of PK dicts)")
          else .ok ()
      else
        match req.payload with
        | .list records =>
          if records.isEmpty then
            .error (.validationError "Empty batch payload" "BATCH mode requires at least one record")
          else if records.length > settings.max_batch_size then
            .error (.validationError "Batch size exceeds limit"
              ("Batch size " ++ toString records.length ++ " exceeds max_batch_size=" ++
                toString settings.max_batch_size))
          else if !batch_records_all_dicts records then
            .error (.validationError "Invalid batch record" "Batch record must be a dict")
          else if req.operation = .DELETE && !req.whereV.truthy then
            .error (.validationError "Batch DELETE requires WHERE conditions"
              "DELETE BATCH requires request.where with PK column(s)")
          else if (req.operation = .UPDATE || req.operation = .MERGE) && !req.whereV.truthy then
            .error (.validationError "Batch UPDATE/MERGE requires WHERE conditions"
              "BATCH requires request.where")
          else if req.operation = .UPDATE || req.operation = .MERGE then
            match req.whereV with
            | .list ws =>
              if ws.length ≠ records.length then
                .error (.validationError "WHERE list length must match payload length"
                  ("where has " ++ toString ws.length ++ " entries but payload has " ++
                    toString records.length ++ " records"))
              else if !batch_where_entries_ok ws then
                .error (.validationError "Each WHERE entry must be a non-empty dict"
                  "where entry is empty or not a dict")
              else .ok ()
            | _ => .ok ()
          else .ok ()
        | _ =>
          .error (.validationError "Invalid payload" "BATCH mode requires list payload")
    else
      match validate_table_name req.table with
      | .error e => .error e
      | .ok _ =>
      match validate_columns req.columns with
      | .error e => .error e
      | .ok _ =>
      match validate_mutation_safety req.operation req.payload req.whereV with
      | .error e => .error e
      | .ok _ =>
      if req.mode = .SINGLE then
        match req.payload with
        | .none => .ok ()
        | .dict _ => .ok ()
        | _ => .error (.validationError "Invalid payload" "SINGLE mode requires dict payload")
      else .ok ()

/-! ## `src/transformers/sql_builders.py` — `_request_to_select_intent` -/

/-- Python `int(x)` on the modelled values (`None` for a `TypeError` /
`ValueError`). -/
def pyToIntOpt : PyValue → Option Int
  | .int n => some n
  | .bool b => some (if b then 1 else 0)
  | .str s => s.toInt?
  | _ => Option.none

/-- Parse one `order_by` entry: a `{column, direction}` dict or a
`(column, direction)` tuple; `OrderByClause.direction` is pydantic-checked
against `{ASC, DESC}`. -/
def parse_order_entry : PyValue → Except PyExc OrderByClause
  | .dict kvs =>
    match pyGet kvs "column" with
    | some (.str c) =>
      (match pyGet kvs "direction" with
       | some (.str d) =>
          if d = "ASC" || d = "DESC" then .ok ⟨c, d⟩ else .error (.otherExc "ValidationError")
       | Option.none => .ok ⟨c, "ASC"⟩
       | some _ => .error (.otherExc "ValidationError"))
    | some _ => .error (.otherExc "ValidationError")
    | Option.none => .error (.otherExc "KeyError")
  | .list [.str c, .str d] =>
    if d = "ASC" || d = "DESC" then .ok ⟨c, d⟩ else .error (.otherExc "ValidationError")
  | _ => .error (.otherExc "TypeError")

/-- Parse the `order_by` list. -/
def parse_order_list : List PyValue → Except PyExc (List OrderByClause)
  | [] => .ok []
  | e :: rest =>
    match parse_order_entry e with
    | .error err => .error err
    | .ok ob =>
      match parse_order_list rest with
      | .error err => .error err
      | .ok obs => .ok (ob :: obs)

/-- Parse one `aggregations` entry: a dict builds an `AggregateColumn`
(pydantic `Literal` check on the function); anything that is neither a dict
nor an `AggregateColumn` instance is silently skipped. -/
def parse_agg_entry : PyValue → Except PyExc (Option AggregateColumn)
  | .dict kvs =>
    match pyGet kvs "function", pyGet kvs "column" with
    | some (.str f), some (.str c) =>
      if f = "COUNT" || f = "SUM" || f = "AVG" || f = "MIN" || f = "MAX" then
        match pyGet kvs "alias" with
        | some (.str a) => .ok (some ⟨f, c, some a⟩)
        | some .none => .ok (some ⟨f, c, Option.none⟩)
        | Option.none => .ok (some ⟨f, c, Option.none⟩)
        | some _ => .error (.otherExc "ValidationError")
      else .error (.otherExc "ValidationError")
    | _, _ => .error (.otherExc "KeyError")
  | _ => .ok Option.none

/-- Parse the `aggregations` list. -/
def parse_agg_list : List PyValue → Except PyExc (List AggregateColumn)
  | [] => .ok []
  | e :: rest =>
    match parse_agg_entry e with
    | .error err => .error err
    | .ok a? =>
      match parse_agg_list rest with
      | .error err => .error err
      | .ok as_ =>
        match a? with
        | some a => .ok (a :: as_)
        | Option.none => .ok as_

/-- Parse one `having` entry: a dict builds a `FilterClause` with operator
`h.get("operator", h.get("op", ">"))`; non-dicts are skipped. -/
def parse_having_entry : PyValue → Except PyExc (Option FilterClause)
  | .dict kvs =>
    match pyGet kvs "column" with
    | some (.str c) =>
      (match (match pyGet kvs "operator" with
              | some v => some v
              | Option.none => pyGet kvs "op") with
       | some (.str o) => .ok (some ⟨c, o, (pyGet kvs "value").getD PyValue.none⟩)
       | Option.none => .ok (some ⟨c, ">", (pyGet kvs "value").getD PyValue.none⟩)
       | some _ => .error (.otherExc "ValidationError"))
    | some _ => .error (.otherExc "ValidationError")
    | Option.none => .error (.otherExc "KeyError")
  | _ => .ok Option.none

/-- Parse the `having` list. -/
def parse_having_list : List PyValue → Except PyExc (List FilterClause)
  | [] => .ok []
  | e :: rest =>
    match parse_having_entry e with
    | .error err => .error err
    | .ok h? =>
      match parse_having_list rest with
      | .error err => .error err
      | .ok hs =>
        match h? with
        | some h => .ok (h :: hs)
        | Option.none => .ok hs

/-- Parse `group_by`: pydantic expects a list of strings. -/
def parse_group_by_items : List PyValue → Except PyExc (List String)
  | [] => .ok []
  | .str s :: rest =>
    match parse_group_by_items rest with
    | .error err => .error err
    | .ok ss => .ok (s :: ss)
  | _ => .error (.otherExc "ValidationError")

/-- `_request_to_select_intent`: map an `OperationRequest` to a
`SelectIntent`, reading only the recognised options keys
`{order_by, limit, offset, aggregations, having, group_by}`; pydantic's
pagination validator runs at `SelectIntent` construction. -/
def request_to_select_intent (req : OperationRequestM) : Except PyExc SelectIntent :=
  match ((match req.whereV with
         | .dict kvs => .ok (kvs.map fun kv => (⟨kv.1, "=", kv.2⟩ : FilterClause))
         | v => if v.truthy then .error (PyExc.otherExc "AttributeError") else .ok []) :
          Except PyExc (List FilterClause)) with
  | .error e => .error e
  | .ok filters =>
  match ((match pyGet req.options "order_by" with
         | some (.list entries) => parse_order_list entries
         | some _ => .error (PyExc.otherExc "TypeError")
         | Option.none => .ok []) : Except PyExc (List OrderByClause)) with
  | .error e => .error e
  | .ok order_by =>
  match ((match pyGet req.options "limit" with
         | Option.none => .ok Option.none
         | some .none => .ok Option.none
         | some v =>
           match pyToIntOpt v with
           | some n =>
             if n ≤ 0 then .error (PyExc.validationError "Invalid limit" "limit must be > 0")
             else .ok (some n)
           | Option.none => .error (PyExc.validationError "Invalid limit" "limit must be an int")) :
          Except PyExc (Option Int)) with
  | .error e => .error e
  | .ok limit =>
  match ((match pyGet req.options "offset" with
         | Option.none => .ok Option.none
         | some .none => .ok Option.none
         | some v =>
           match pyToIntOpt v with
           | some n =>
             if n < 0 then .error (PyExc.validationError "Invalid offset" "offset must be >= 0")
             else .ok (some n)
           | Option.none => .error (PyExc.validationError "Invalid offset" "offset must be an int")) :
          Except PyExc (Option Int)) with
  | .error e => .error e
  | .ok offset =>
  match ((match pyGet req.options "aggregations" with
         | some (.list entries) => parse_agg_list entries
         | some _ => .error (PyExc.otherExc "TypeError")
         | Option.none => .ok []) : Except PyExc (List AggregateColumn)) with
  | .error e => .error e
  | .ok aggregations =>
  match ((match pyGet req.options "having" with
         | some (.list entries) => parse_having_list entries
         | some _ => .error (PyExc.otherExc "TypeError")
         | Option.none => .ok []) : Except PyExc (List FilterClause)) with
  | .error e => .error e
  | .ok having =>
  match ((match pyGet req.options "group_by" with
         | some (.list items) => parse_group_by_items items
         | some _ => .error (PyExc.otherExc "ValidationError")
         | Option.none => .ok []) : Except PyExc (List String)) with
  | .error e => .error e
  | .ok group_by =>
  let cols := match req.columns with
    | some (c :: rest) => c :: rest
    | _ => ["*"]
  let intent : SelectIntent :=
    ⟨req.table, cols, filters, group_by, aggregations, having, order_by, limit, offset⟩
  match intent.validate_pagination with
  | .ok _ => .ok intent
  | .error _ => .error (PyExc.otherExc "ValidationError")

/-- Appending a binding for a different key does not change a dict lookup. -/
theorem pyGet_append_single_ne (d : List (String × PyValue)) (k : String) (v : PyValue)
    (key : String) (h : key ≠ k) : pyGet (d ++ [(k, v)]) key = pyGet d key := by
  induction d with
  | nil =>
    simp [pyGet, List.find?]
    rw [decide_eq_false (fun hk => h hk.symm)]
  | cons hd tl ih =>
    by_cases hhd : hd.1 = key
    · simp [pyGet, List.find?, hhd]
    · have hdec : decide (hd.1 = key) = false := by simp [hhd]
      unfold pyGet at ih ⊢
      simp only [List.cons_append, List.find?, hdec]
      exact ih

/-- C5 (amended): the VALIDATE stage never inspects the contents of
`options` (only that it is a dict — vacuous in the typed embedding), and
the request-to-intent translation reads only the recognised keys, so a
request whose options carry an unrecognised key is processed exactly as if
the key were absent — it is silently ignored, not rejected. -/
theorem unknown_options_key_is_ignored (settings : LifecycleSettings)
    (req : OperationRequestM) (k : String) (v : PyValue)
    (hk : k ≠ "limit" ∧ k ≠ "offset" ∧ k ≠ "order_by" ∧ k ≠ "group_by" ∧
          k ≠ "aggregations" ∧ k ≠ "having") :
    RequestLifecycle.validate settings { req with options := req.options ++ [(k, v)] }
      = RequestLifecycle.validate settings req
    ∧ request_to_select_intent { req with options := req.options ++ [(k, v)] }
      = request_to_select_intent req := by
  obtain ⟨h1, h2, h3, h4, h5, h6⟩ := hk
  refine ⟨rfl, ?_⟩
  unfold request_to_select_intent
  dsimp only
  rw [pyGet_append_single_ne req.options k v "order_by" (Ne.symm h3),
      pyGet_append_single_ne req.options k v "limit" (Ne.symm h1),
      pyGet_append_single_ne req.options k v "offset" (Ne.symm h2),
      pyGet_append_single_ne req.options k v "aggregations" (Ne.symm h5),
      pyGet_append_single_ne req.options k v "having" (Ne.symm h6),
      pyGet_append_single_ne req.options k v "group_by" (Ne.symm h4)]

/-- C5 counterexample: a READ request whose options hold only the
unrecognised key `unexpected_option` passes validation and is translated to
a select intent — the pipeline does not reject it. -/
theorem unknown_options_key_counterexample :
    RequestLifecycle.validate ⟨1000, 50⟩
      { operation := .READ, table := "cat.sch.tbl", mode := .SINGLE,
        options := [("unexpected_option", PyValue.int 1)] } = Except.ok ()
    ∧ request_to_select_intent
        { operation := .READ, table := "cat.sch.tbl", mode := .SINGLE,
          options := [("unexpected_option", PyValue.int 1)] }
      = Except.ok ⟨"cat.sch.tbl", ["*"], [], [], [], [], [], Option.none, Option.none⟩ :=
  ⟨rfl, rfl⟩

/-- Witness for the amended C5 at the concrete key `unexpected_option`. -/
theorem unknown_options_key_is_ignored_witness :
    ("unexpected_option" ≠ "limit" ∧ "unexpected_option" ≠ "offset" ∧
     "unexpected_option" ≠ "order_by" ∧ "unexpected_option" ≠ "group_by" ∧
     "unexpected_option" ≠ "aggregations" ∧ "unexpected_option" ≠ "having")
    ∧ (RequestLifecycle.validate ⟨1000, 50⟩
        { operation := OperationType.READ, table := "cat.sch.tbl",
          mode := ProcessingMode.SINGLE,
          options := [] ++ [("unexpected_option", PyValue.int 1)] }
        = RequestLifecycle.validate ⟨1000, 50⟩
          { operation := OperationType.READ, table := "cat.sch.tbl",
            mode := ProcessingMode.SINGLE, options := [] }
      ∧ request_to_select_intent
          { operation := OperationType.READ, table := "cat.sch.tbl",
            mode := ProcessingMode.SINGLE,
            options := [] ++ [("unexpected_option", PyValue.int 1)] }
        = request_to_select_intent
          { operation := OperationType.READ, table := "cat.sch.tbl",
            mode := ProcessingMode.SINGLE, options := [] }) :=
  ⟨by decide,
   unknown_options_key_is_ignored ⟨1000, 50⟩
     { operation := OperationType.READ, table := "cat.sch.tbl",
       mode := ProcessingMode.SINGLE, options := [] }
     "unexpected_option" (PyValue.int 1) (by decide)⟩

/-! ## `src/handlers/write/single.py` — rowcount-based success detection -/

/-- `bool(request.options and request.options.get("old_values"))`: OCC is in
effect only when the options dict is non-empty and `old_values` is present
and truthy (a non-empty dict). -/
def writeHasOcc (options : List (String × PyValue)) : Bool :=
  !options.isEmpty && ((pyGet options "old_values").getD PyValue.none).truthy

/-- The post-execution rowcount logic of `WriteSingleHandler.handle`: the
driver reported `affected` rows for the single-record `opName` mutation
(`-1` means the driver does not report counts). -/
def writeSingleOutcome (opName : String) (options : List (String × PyValue))
    (affected : Int) : OperationResponseM :=
  if affected = 0 then
    let msg :=
      if writeHasOcc options then
        opName ++ " affected 0 rows - record was modified by another user (concurrency conflict)"
      else
        opName ++ " affected 0 rows - no matching record or conflict detected"
    { success := false, affected_rows := 0, message := msg }
  else
    { success := true, affected_rows := affected, message := "Write operation successful" }

/-- C4 counterexample: with `options = {old_values: {}}` — the key is
present but empty — a zero rowcount yields the "no matching record"
message, not the concurrency-conflict message the claim requires for every
present `old_values`. -/
theorem write_zero_rows_empty_old_values_counterexample :
    pyHasKey [("old_values", PyValue.dict [])] "old_values" = true
    ∧ (writeSingleOutcome "UPDATE" [("old_values", PyValue.dict [])] 0).success = false
    ∧ strOccurs "concurrency conflict"
        (writeSingleOutcome "UPDATE" [("old_values", PyValue.dict [])] 0).message = false
    ∧ strOccurs "no matching record"
        (writeSingleOutcome "UPDATE" [("old_values", PyValue.dict [])] 0).message = true :=
  ⟨rfl, rfl, by rfl, by rfl⟩

/-- C4 (amended): on a zero rowcount the handler fails with
`affected_rows = 0` and a concurrency-conflict message when `old_values` is
present *and non-empty* (truthy), and the "no matching record" message
otherwise; any non-zero rowcount — in particular the `-1` of a driver that
does not report counts — is a success. -/
theorem write_single_rowcount_semantics (opName : String)
    (options : List (String × PyValue)) (affected : Int) :
    (affected = 0 → writeHasOcc options = true →
      writeSingleOutcome opName options affected =
        { success := false, data := Option.none, affected_rows := 0,
          message := opName ++
            " affected 0 rows - record was modified by another user (concurrency conflict)",
          errors := [], metadata := [] })
    ∧ (affected = 0 → writeHasOcc options = false →
      writeSingleOutcome opName options affected =
        { success := false, data := Option.none, affected_rows := 0,
          message := opName ++ " affected 0 rows - no matching record or conflict detected",
          errors := [], metadata := [] })
    ∧ (affected ≠ 0 →
      writeSingleOutcome opName options affected =
        { success := true, data := Option.none, affected_rows := affected,
          message := "Write operation successful", errors := [], metadata := [] })
    ∧ (affected = -1 → (writeSingleOutcome opName options affected).success = true) := by
  refine ⟨?_, ?_, ?_, ?_⟩
  · intro h0 hocc
    simp [writeSingleOutcome, h0, hocc]
  · intro h0 hocc
    simp [writeSingleOutcome, h0, hocc]
  · intro hne
    simp [writeSingleOutcome, hne]
  · intro hm1
    simp [writeSingleOutcome, hm1]

/-- Witness for C4 at concrete inputs: a genuine OCC conflict
(`old_values = {status: "A"}`, rowcount 0) and the `-1` driver case. -/
theorem write_single_rowcount_semantics_witness :
    ((0 : Int) = 0 ∧ writeHasOcc [("old_values", PyValue.dict [("status", PyValue.str "A")])] = true
      ∧ writeSingleOutcome "UPDATE" [("old_values", PyValue.dict [("status", PyValue.str "A")])] 0 =
        { success := false, data := Option.none, affected_rows := 0,
          message := "UPDATE" ++
            " affected 0 rows - record was modified by another user (concurrency conflict)",
          errors := [], metadata := [] })
    ∧ ((-1 : Int) = -1 ∧ (writeSingleOutcome "INSERT" [] (-1)).success = true) :=
  ⟨⟨rfl, rfl, (write_single_rowcount_semantics "UPDATE"
      [("old_values", PyValue.dict [("status", PyValue.str "A")])] 0).1 rfl rfl⟩,
   ⟨rfl, (write_single_rowcount_semantics "INSERT" [] (-1)).2.2.2 rfl⟩⟩

/-! ## `src/engine/models.py` — write intents, and their builders -/

/-- `InsertIntent`. -/
structure InsertIntent where
  table : String
  values : List (String × PyValue)

/-- `UpdateIntent` (strategy is `UPDATE` or `MERGE`). -/
structure UpdateIntent where
  table : String
  pk_values : List (String × PyValue)
  updates : List (String × PyValue)
  old_values : List (String × PyValue) := []
  strategy : String := "UPDATE"

/-- `DeleteIntent` with `pk_values` already normalised to a list of dicts. -/
structure DeleteIntent where
  table : String
  pk_values : List (List (String × PyValue))

/-- `validate_insert` (raises `ValueError` on an empty payload). -/
def validate_insert (intent : InsertIntent) : Except PyExc Unit :=
  if intent.values.isEmpty then .error (.otherExc "ValueError") else .ok ()

/-- Do two association lists share a key? -/
def keysIntersect (a b : List (String × PyValue)) : Bool :=
  a.any (fun x => b.any (fun y => y.1 = x.1))

/-- `validate_update`: PKs and updates non-empty, updates and `old_values`
must not touch PK columns. -/
def validate_update (intent : UpdateIntent) : Except PyExc Unit :=
  if intent.pk_values.isEmpty then .error (.otherExc "ValueError")
  else if intent.updates.isEmpty then .error (.otherExc "ValueError")
  else if keysIntersect intent.updates intent.pk_values then .error (.otherExc "ValueError")
  else if !intent.old_values.isEmpty && keysIntersect intent.old_values intent.pk_values then
    .error (.otherExc "ValueError")
  else .ok ()

/-- `validate_delete`. -/
def validate_delete (intent : DeleteIntent) : Except PyExc Unit :=
  if intent.pk_values.isEmpty then .error (.otherExc "ValueError") else .ok ()

/-- Join rendered fragments with a separator (non-empty lists only). -/
def joinSep (sep : String) : List String → String
  | [] => ""
  | [x] => x
  | x :: rest => x ++ sep ++ joinSep sep rest

/-- `build_insert`: `INSERT INTO t (cols) VALUES (placeholders)` with
`v_<col>` parameters. -/
def build_insert (intent : InsertIntent) : String × List (String × PyValue) :=
  let cols := intent.values.map (fun kv => "`" ++ kv.1 ++ "`")
  let phs := intent.values.map (fun kv => "%(v_" ++ kv.1 ++ ")s")
  ("INSERT INTO " ++ intent.table ++ " (" ++ joinSep ", " cols ++ ") VALUES (" ++
     joinSep ", " phs ++ ")",
   intent.values.map (fun kv => ("v_" ++ kv.1, kv.2)))

/-- `_build_plain_update`: `UPDATE t SET c = %(s_c)s, ... WHERE pk = %(pk_pk)s
AND old = %(old_c)s ...`; the WHERE conjunction must be non-empty. -/
def build_plain_update (intent : UpdateIntent) :
    Except PyExc (String × List (String × PyValue)) :=
  let setFrags := intent.updates.map (fun kv => "`" ++ kv.1 ++ "` = %(s_" ++ kv.1 ++ ")s")
  let pkFrags := intent.pk_values.map (fun kv => "`" ++ kv.1 ++ "` = %(pk_" ++ kv.1 ++ ")s")
  let oldFrags := intent.old_values.map (fun kv => "`" ++ kv.1 ++ "` = %(old_" ++ kv.1 ++ ")s")
  match pkFrags ++ oldFrags with
  | [] => .error (.otherExc "ValueError")
  | w :: ws =>
    .ok ("UPDATE " ++ intent.table ++ " SET " ++ joinSep ", " setFrags ++
          " WHERE " ++ joinSep " AND " (w :: ws),
         intent.updates.map (fun kv => ("s_" ++ kv.1, kv.2)) ++
         intent.pk_values.map (fun kv => ("pk_" ++ kv.1, kv.2)) ++
         intent.old_values.map (fun kv => ("old_" ++ kv.1, kv.2)))

/-- `_build_merge_update`: the MERGE node graph rendered for Spark
(`old_values` is ignored by the MERGE strategy). -/
def build_merge_update (intent : UpdateIntent) :
    Except PyExc (String × List (String × PyValue)) :=
  let allCols := intent.pk_values ++ intent.updates
  let aliases := allCols.map (fun kv => "%(m_" ++ kv.1 ++ ")s AS `" ++ kv.1 ++ "`")
  let onFrags := intent.pk_values.map (fun kv => "t.`" ++ kv.1 ++ "` = s.`" ++ kv.1 ++ "`")
  let setFrags := intent.updates.map (fun kv => "t.`" ++ kv.1 ++ "` = s.`" ++ kv.1 ++ "`")
  let insCols := allCols.map (fun kv => "`" ++ kv.1 ++ "`")
  let insVals := allCols.map (fun kv => "s.`" ++ kv.1 ++ "`")
  match onFrags with
  | [] => .error (.otherExc "ValueError")
  | o :: os =>
    .ok ("MERGE INTO " ++ intent.table ++ " AS t USING (SELECT " ++ joinSep ", " aliases ++
          ") AS s ON " ++ joinSep " AND " (o :: os) ++
          " WHEN MATCHED THEN UPDATE SET " ++ joinSep ", " setFrags ++
          " WHEN NOT MATCHED THEN INSERT (" ++ joinSep ", " insCols ++ ") VALUES (" ++
          joinSep ", " insVals ++ ")",
         allCols.map (fun kv => ("m_" ++ kv.1, kv.2)))

/-- `build_update` dispatches on the strategy. -/
def build_update (intent : UpdateIntent) :
    Except PyExc (String × List (String × PyValue)) :=
  if intent.strategy = "UPDATE" then build_plain_update intent
  else build_merge_update intent

/-- One PK set of `build_delete`: AND-combined and parenthesised when
compound; an empty PK dict raises (via `_combine_and`). -/
def delete_row_condition (i : Nat) (pk : List (String × PyValue)) :
    Except PyExc (String × List (String × PyValue)) :=
  let frags := pk.map (fun kv => "`" ++ kv.1 ++ "` = %(d_" ++ kv.1 ++ "_" ++ toString i ++ ")s")
  let params := pk.map (fun kv => ("d_" ++ kv.1 ++ "_" ++ toString i, kv.2))
  match frags with
  | [] => .error (.otherExc "ValueError")
  | [f] => .ok (f, params)
  | f :: fs => .ok ("(" ++ joinSep " AND " (f :: fs) ++ ")", params)

/-- The per-row loop of `build_delete`. -/
def delete_row_conditions : Nat → List (List (String × PyValue)) →
    Except PyExc (List String × List (String × PyValue))
  | _, [] => .ok ([], [])
  | i, pk :: rest =>
    match delete_row_condition i pk with
    | .error e => .error e
    | .ok (frag, params) =>
      match delete_row_conditions (i + 1) rest with
      | .error e => .error e
      | .ok (frags, params2) => .ok (frag :: frags, params ++ params2)

/-- `build_delete`: `DELETE FROM t WHERE <row OR row OR ...>`. -/
def build_delete (intent : DeleteIntent) :
    Except PyExc (String × List (String × PyValue)) :=
  match delete_row_conditions 0 intent.pk_values with
  | .error e => .error e
  | .ok ([], _) => .error (.otherExc "ValueError")
  | .ok (f :: fs, params) =>
    .ok ("DELETE FROM " ++ intent.table ++ " WHERE " ++ joinSep " OR " (f :: fs), params)

/-! ## `src/transformers/sql_builders.py` — write/delete intent translation -/

/-- `_request_to_insert_intent` (dict payload required). -/
def request_to_insert_intent (r : SubRequest) : Except PyExc InsertIntent :=
  match r.payload with
  | .dict kvs => .ok ⟨r.table, kvs⟩
  | _ => .error (.otherExc "ValueError")

/-- `_request_to_update_intent`: `pk_values` from `request.where or {}`,
`old_values` from `options.get("old_values", {})`, MERGE strategy for MERGE
operations; non-dict values fail pydantic validation. -/
def request_to_update_intent (r : SubRequest) : Except PyExc UpdateIntent :=
  match r.payload with
  | .dict kvs =>
    let strategy := if r.operation = .MERGE then "MERGE" else "UPDATE"
    match ((if r.options.isEmpty then Option.none else pyGet r.options "old_values") :
            Option PyValue) with
    | some (.dict ovs) =>
      (match r.whereV with
       | .dict w => .ok ⟨r.table, w, kvs, ovs, strategy⟩
       | v => if v.truthy then .error (.otherExc "ValidationError")
              else .ok ⟨r.table, [], kvs, ovs, strategy⟩)
    | some .none =>
      (match r.whereV with
       | .dict w => .ok ⟨r.table, w, kvs, [], strategy⟩
       | v => if v.truthy then .error (.otherExc "ValidationError")
              else .ok ⟨r.table, [], kvs, [], strategy⟩)
    | some _ => .error (.otherExc "ValidationError")
    | Option.none =>
      (match r.whereV with
       | .dict w => .ok ⟨r.table, w, kvs, [], strategy⟩
       | v => if v.truthy then .error (.otherExc "ValidationError")
              else .ok ⟨r.table, [], kvs, [], strategy⟩)
  | _ => .error (.otherExc "ValueError")

/-- Extract a list of dicts (pydantic `list[dict]`). -/
def extract_dict_list : List PyValue → Except PyExc (List (List (String × PyValue)))
  | [] => .ok []
  | .dict d :: rest =>
    match extract_dict_list rest with
    | .error e => .error e
    | .ok ds => .ok (d :: ds)
  | _ => .error (.otherExc "ValidationError")

/-- `_request_to_delete_intent` (`where` required; a dict is normalised to a
one-element list by the model validator). -/
def request_to_delete_intent (r : SubRequest) : Except PyExc DeleteIntent :=
  if !r.whereV.truthy then .error (.otherExc "ValueError")
  else
    match r.whereV with
    | .dict w => .ok ⟨r.table, [w]⟩
    | .list ds =>
      (match extract_dict_list ds with
       | .error e => .error e
       | .ok dicts => .ok ⟨r.table, dicts⟩)
    | _ => .error (.otherExc "ValidationError")

/-- `build_write_query`: INSERT via the insert builder, UPDATE/MERGE via the
update builder (validation first). -/
def build_write_query (r : SubRequest) : Except PyExc (String × List (String × PyValue)) :=
  if r.operation = .INSERT then
    match request_to_insert_intent r with
    | .error e => .error e
    | .ok intent =>
      match validate_insert intent with
      | .error e => .error e
      | .ok _ => .ok (build_insert intent)
  else
    match request_to_update_intent r with
    | .error e => .error e
    | .ok intent =>
      match validate_update intent with
      | .error e => .error e
      | .ok _ => build_update intent

/-- `build_delete_query`. -/
def build_delete_query (r : SubRequest) : Except PyExc (String × List (String × PyValue)) :=
  match request_to_delete_intent r with
  | .error e => .error e
  | .ok intent =>
    match validate_delete intent with
    | .error e => .error e
    | .ok _ => build_delete intent

/-! ## `src/handlers/transaction/multi_op.py` -/

/-- Side effects a transaction run would perform against the warehouse:
connections leased and statements executed (SQL with parameters). -/
structure TxEffects where
  connections : Nat
  statements : List (String × List (String × PyValue))

/-- The pre-loop structural checks on the sub-operations (nested
transactions, non-SINGLE modes and list payloads are rejected before any
connection is opened). -/
def txPrecheck : List SubRequest → Except PyExc Unit
  | [] => .ok ()
  | op :: rest =>
    if op.operation = .TRANSACTION then
      .error (.validationError "Nested transactions are not supported" "Nested transaction")
    else if op.mode ≠ .SINGLE then
      .error (.validationError "Transaction sub-operations must use SINGLE mode" "Sub-op mode")
    else
      match op.payload with
      | .list _ =>
        .error (.validationError "Transaction sub-operations require dict payloads"
          "Sub-op has list payload (batch) which is not supported")
      | _ => txPrecheck rest

/-- The per-operation loop inside the transaction: validate mutation safety,
build the SQL, execute it (`driver i` is the rowcount or exception of the
`i`-th statement), accumulating affected rows; returns the statements that
were issued before any failure. -/
def txLoop (driver : Nat → Except PyExc Int) :
    List SubRequest → Nat → Int →
    Except PyExc Int × List (String × List (String × PyValue))
  | [], _, acc => (.ok acc, [])
  | op :: rest, i, acc =>
    match validate_mutation_safety op.operation op.payload op.whereV with
    | .error e => (.error e, [])
    | .ok _ =>
      match (if op.operation = .INSERT || op.operation = .UPDATE || op.operation = .MERGE then
               build_write_query op
             else if op.operation = .DELETE then
               build_delete_query op
             else
               .error (.otherExc "ValueError")) with
      | .error e => (.error e, [])
      | .ok (sql, params) =>
        match driver i with
        | .error e => (.error e, [(sql, params)])
        | .ok affected =>
          match txLoop driver rest (i + 1) (acc + affected) with
          | (res, stmts) => (res, (sql, params) :: stmts)

/-- `BaseHandler._handle_error`: shape a caught exception into a failed
`OperationResponse`. -/
def handler_error_response (e : PyExc) (corr : Option String) : OperationResponseM :=
  { success := false
    message := (error_detail_from_exception e).message
    errors := [error_detail_from_exception e]
    metadata := match corr with
      | some c => [("correlation_id", c)]
      | Option.none => [] }

/-- `TransactionHandler.handle`: rejects non-transaction input, returns the
empty-transaction response without touching the pool when `operations` is
absent or empty, and otherwise leases one connection and executes all
sub-operations in one transaction (any exception inside the `try` is shaped
by `_handle_error`). -/
def TransactionHandler.handle (driver : Nat → Except PyExc Int) (corr : Option String)
    (req : OperationRequestM) : Except PyExc (OperationResponseM × TxEffects) :=
  if req.operation ≠ .TRANSACTION then
    .error (.validationError "Invalid transaction request" "TransactionHandler received wrong operation")
  else if req.mode ≠ .SINGLE then
    .error (.validationError "Transaction wrapper mode must be SINGLE" "Transaction wrapper mode")
  else
    match req.operations with
    | Option.none =>
      .ok ({ success := true, message := "Empty transaction (no ops)" }, ⟨0, []⟩)
    | some [] =>
      .ok ({ success := true, message := "Empty transaction (no ops)" }, ⟨0, []⟩)
    | some (op :: rest) =>
      match txPrecheck (op :: rest) with
      | .error e => .error e
      | .ok _ =>
        match txLoop driver (op :: rest) 0 0 with
        | (.ok total, stmts) =>
          .ok ({ success := true, affected_rows := total,
                 message := "Transaction committed successfully" }, ⟨1, stmts⟩)
        | (.error e, stmts) =>
          .ok (handler_error_response e corr, ⟨1, stmts⟩)

/-- C10: a TRANSACTION request with `operations = []` passes the VALIDATE
stage and the handler returns `success = true`, message
`Empty transaction (no ops)` and zero affected rows, leasing no connection
and executing no SQL. -/
theorem empty_transaction_fast_path (settings : LifecycleSettings)
    (driver : Nat → Except PyExc Int) (corr : Option String) (req : OperationRequestM)
    (hop : req.operation = .TRANSACTION) (hmode : req.mode = .SINGLE)
    (hops : req.operations = some []) :
    RequestLifecycle.validate settings req = Except.ok ()
    ∧ TransactionHandler.handle driver corr req =
        Except.ok ({ success := true, data := Option.none, affected_rows := 0,
                     message := "Empty transaction (no ops)", errors := [], metadata := [] },
                   { connections := 0, statements := [] }) := by
  constructor
  · simp [RequestLifecycle.validate, hop, validate_transaction_request, hmode, hops,
      validate_tx_subops]
  · simp [TransactionHandler.handle, hop, hmode, hops]

/-- Witness for C10 at a concrete empty transaction request. -/
theorem empty_transaction_fast_path_witness :
    ((⟨.TRANSACTION, "_transaction", PyValue.dict [], .SINGLE, Option.none, PyValue.none,
        [], some [], Option.none, Option.none, Option.none⟩ :
        OperationRequestM).operation = OperationType.TRANSACTION
     ∧ (⟨.TRANSACTION, "_transaction", PyValue.dict [], .SINGLE, Option.none, PyValue.none,
        [], some [], Option.none, Option.none, Option.none⟩ :
        OperationRequestM).mode = ProcessingMode.SINGLE
     ∧ (⟨.TRANSACTION, "_transaction", PyValue.dict [], .SINGLE, Option.none, PyValue.none,
        [], some [], Option.none, Option.none, Option.none⟩ :
        OperationRequestM).operations = some [])
    ∧ (RequestLifecycle.validate ⟨1000, 50⟩
        (⟨.TRANSACTION, "_transaction", PyValue.dict [], .SINGLE, Option.none, PyValue.none,
          [], some [], Option.none, Option.none, Option.none⟩ : OperationRequestM)
        = Except.ok ()
      ∧ TransactionHandler.handle (fun _ => Except.ok 0) Option.none
          (⟨.TRANSACTION, "_transaction", PyValue.dict [], .SINGLE, Option.none, PyValue.none,
            [], some [], Option.none, Option.none, Option.none⟩ : OperationRequestM) =
          Except.ok ({ success := true, data := Option.none, affected_rows := 0,
                       message := "Empty transaction (no ops)", errors := [], metadata := [] },
                     { connections := 0, statements := [] })) :=
  ⟨⟨rfl, rfl, rfl⟩,
   empty_transaction_fast_path ⟨1000, 50⟩ (fun _ => Except.ok 0) Option.none _ rfl rfl rfl⟩

/-! ## `src/infrastructure/warmup.py` — `WarehouseWarmupGate.maybe_warm` -/

/-- The warmup-related settings. -/
structure WarmupSettings where
  warehouse_warmup_enabled : Bool
  warehouse_warmup_ttl_seconds : Int
  warehouse_warmup_failure_backoff_seconds : Int
  warehouse_warmup_sql : String

/-- The gate's mutable state (monotonic-clock stamps). -/
structure WarmupState where
  last_success_monotonic : Option ℚ
  last_attempt_monotonic : Option ℚ

/-- An attempted warmup statement: the lease token used and the SQL text. -/
structure WarmAttempt where
  token : Option String
  sql : String

/-- The success-TTL fast path: a success within the TTL. -/
def warmupSkipSuccess (s : WarmupSettings) (st : WarmupState) (now : ℚ) : Bool :=
  match st.last_success_monotonic with
  | some t => now - t < (s.warehouse_warmup_ttl_seconds : ℚ)
  | Option.none => false

/-- The failure-backoff fast path: no success ever, and an attempt within
the backoff window. -/
def warmupSkipFailure (s : WarmupSettings) (st : WarmupState) (now : ℚ) : Bool :=
  st.last_success_monotonic.isNone &&
  (match st.last_attempt_monotonic with
   | some t => now - t < (s.warehouse_warmup_failure_backoff_seconds : ℚ)
   | Option.none => false)

/-- `WarehouseWarmupGate.maybe_warm`, sequentially (the in-lock re-check of
the fast paths re-reads the monotonic clock; in this single-task embedding
that reading equals `now`, so the re-check repeats the same test).
`envHasToken` models `DATABRICKS_TOKEN` being present in the environment;
`attemptSucceeds` is the outcome of the driver call, whose exception is
swallowed by the gate's `except` — the function is total, it never raises.
Returns (return value, new state, attempted statement if any). -/
def maybe_warm (s : WarmupSettings) (st : WarmupState) (now : ℚ)
    (envHasToken : Bool) (attemptSucceeds : Bool) :
    Bool × WarmupState × Option WarmAttempt :=
  if !s.warehouse_warmup_enabled then (false, st, Option.none)
  else if warmupSkipSuccess s st now then (false, st, Option.none)
  else if warmupSkipFailure s st now then (false, st, Option.none)
  else
    let st1 : WarmupState := { st with last_attempt_monotonic := some now }
    if !envHasToken then (false, st1, Option.none)
    else if attemptSucceeds then
      (true, { st1 with last_success_monotonic := some now },
       some ⟨Option.none, s.warehouse_warmup_sql⟩)
    else
      (true, st1, some ⟨Option.none, s.warehouse_warmup_sql⟩)

/-- C8 counterexample: warmup enabled, fresh gate (neither fast path
applies), but no `DATABRICKS_TOKEN` in the environment — `maybe_warm`
attempts nothing (it only stamps the attempt time), contradicting the
claim that an attempt is always made when no fast path applies. -/
theorem warmup_no_sp_token_skips_attempt :
    (⟨true, 600, 30, "SELECT 1"⟩ : WarmupSettings).warehouse_warmup_enabled = true
    ∧ warmupSkipSuccess ⟨true, 600, 30, "SELECT 1"⟩ ⟨Option.none, Option.none⟩ 0 = false
    ∧ warmupSkipFailure ⟨true, 600, 30, "SELECT 1"⟩ ⟨Option.none, Option.none⟩ 0 = false
    ∧ maybe_warm ⟨true, 600, 30, "SELECT 1"⟩ ⟨Option.none, Option.none⟩ 0 false true
      = (false, ⟨Option.none, some 0⟩, Option.none) :=
  ⟨rfl, rfl, rfl, rfl⟩

/-- C8 (amended): with warmup enabled and neither fast path applicable,
`maybe_warm` attempts the configured warmup statement on a
service-principal lease (`token = None`, never an OBO token) whenever an SP
token is configured in the environment; a failed attempt leaves the
success stamp untouched and only updates the attempt stamp; with no SP
token configured it skips the attempt, also only stamping the attempt
time.  (`maybe_warm` is a total function: it never raises.) -/
theorem warmup_attempt_semantics (s : WarmupSettings) (st : WarmupState) (now : ℚ)
    (envHasToken attemptSucceeds : Bool)
    (hen : s.warehouse_warmup_enabled = true)
    (hfs : warmupSkipSuccess s st now = false)
    (hff : warmupSkipFailure s st now = false) :
    (envHasToken = true →
      (maybe_warm s st now envHasToken attemptSucceeds).2.2 =
        some ⟨Option.none, s.warehouse_warmup_sql⟩)
    ∧ (envHasToken = true → attemptSucceeds = false →
      (maybe_warm s st now envHasToken attemptSucceeds).2.1 =
        ⟨st.last_success_monotonic, some now⟩)
    ∧ (envHasToken = false →
      (maybe_warm s st now envHasToken attemptSucceeds).2.2 = Option.none
      ∧ (maybe_warm s st now envHasToken attemptSucceeds).2.1 =
          ⟨st.last_success_monotonic, some now⟩) := by
  refine ⟨?_, ?_, ?_⟩
  · intro henv
    cases hat : attemptSucceeds <;> simp [maybe_warm, hen, hfs, hff, henv, hat]
  · intro henv hat
    simp [maybe_warm, hen, hfs, hff, henv, hat]
  · intro henv
    simp [maybe_warm, hen, hfs, hff, henv]

/-- Witness for the amended C8: fresh gate, SP token configured, failing
attempt. -/
theorem warmup_attempt_semantics_witness :
    ((⟨true, 600, 30, "SELECT 1"⟩ : WarmupSettings).warehouse_warmup_enabled = true
     ∧ warmupSkipSuccess ⟨true, 600, 30, "SELECT 1"⟩ ⟨Option.none, Option.none⟩ 0 = false
     ∧ warmupSkipFailure ⟨true, 600, 30, "SELECT 1"⟩ ⟨Option.none, Option.none⟩ 0 = false)
    ∧ ((true = true →
        (maybe_warm ⟨true, 600, 30, "SELECT 1"⟩ ⟨Option.none, Option.none⟩ 0 true false).2.2 =
          some ⟨Option.none, (⟨true, 600, 30, "SELECT 1"⟩ : WarmupSettings).warehouse_warmup_sql⟩)
      ∧ (true = true → false = false →
        (maybe_warm ⟨true, 600, 30, "SELECT 1"⟩ ⟨Option.none, Option.none⟩ 0 true false).2.1 =
          ⟨(⟨Option.none, Option.none⟩ : WarmupState).last_success_monotonic, some 0⟩)
      ∧ (true = false →
        (maybe_warm ⟨true, 600, 30, "SELECT 1"⟩ ⟨Option.none, Option.none⟩ 0 true false).2.2 = Option.none
        ∧ (maybe_warm ⟨true, 600, 30, "SELECT 1"⟩ ⟨Option.none, Option.none⟩ 0 true false).2.1 =
            ⟨(⟨Option.none, Option.none⟩ : WarmupState).last_success_monotonic, some 0⟩)) :=
  ⟨⟨rfl, rfl, rfl⟩,
   warmup_attempt_semantics ⟨true, 600, 30, "SELECT 1"⟩ ⟨Option.none, Option.none⟩ 0 true false
     rfl rfl rfl⟩

/-! ## `src/infrastructure/connection.py` — `ConnectionPool.get_connection` -/

/-- A driver connection, tagged with the token it was created under
(`none` = service principal). -/
structure PoolConn where
  connId : Nat
  authToken : Option String
deriving DecidableEq, Repr

/-- The thread-local (task-local) connection cache: at most one SP
connection and at most one OBO connection with its token; `nextId` models
fresh connection creation. -/
structure PoolLocal where
  sp_conn : Option PoolConn
  obo_conn : Option PoolConn
  obo_token : Option String
  nextId : Nat

/-- How a lease was satisfied. -/
inductive LeaseKind where
  | reused | createdCached | createdOneShot
deriving DecidableEq, Repr

/-- The result of entering `get_connection`: the yielded connection, the
thread-local state while the `with` block is open, and the lease kind. -/
structure LeaseResult where
  conn : PoolConn
  during : PoolLocal
  kind : LeaseKind

/-- Entering `ConnectionPool.get_connection(token)`: identity-aware reuse —
SP reuses the cached SP connection; OBO reuses the cached OBO connection
only under the same token; a different OBO token gets a one-shot connection
that is not cached; otherwise a fresh connection is created and cached. -/
def get_connection_enter (st : PoolLocal) (token : Option String) : LeaseResult :=
  match token with
  | Option.none =>
    match st.sp_conn with
    | some c => ⟨c, st, .reused⟩
    | Option.none =>
      let c : PoolConn := ⟨st.nextId, Option.none⟩
      ⟨c, { st with sp_conn := some c, nextId := st.nextId + 1 }, .createdCached⟩
  | some tk =>
    match st.obo_conn with
    | some c =>
      if st.obo_token = some tk then ⟨c, st, .reused⟩
      else
        let c : PoolConn := ⟨st.nextId, some tk⟩
        ⟨c, { st with nextId := st.nextId + 1 }, .createdOneShot⟩
    | Option.none =>
      let c : PoolConn := ⟨st.nextId, some tk⟩
      ⟨c, { st with obo_conn := some c, obo_token := some tk, nextId := st.nextId + 1 },
       .createdCached⟩

/-- Leaving the `with` block (the `finally`): a reused lease closes nothing;
a one-shot connection is closed without touching the cache; a created and
cached connection is closed and its cache slot cleared. -/
def get_connection_exit (r : LeaseResult) (stAfter : PoolLocal) : PoolLocal :=
  match r.kind with
  | .reused => stAfter
  | .createdOneShot => stAfter
  | .createdCached =>
    match r.conn.authToken with
    | Option.none => { stAfter with sp_conn := Option.none }
    | some _ => { stAfter with obo_conn := Option.none, obo_token := Option.none }

/-- Well-formedness of the thread-local cache: the cached SP connection was
created as SP, the cached OBO connection was created under exactly the
cached token, and cached ids are below the fresh counter. -/
def PoolWF (st : PoolLocal) : Prop :=
  (∀ c, st.sp_conn = some c → c.authToken = Option.none ∧ c.connId < st.nextId)
  ∧ (∀ c, st.obo_conn = some c → c.authToken = st.obo_token ∧ c.connId < st.nextId)

/-- C7: the identity rules of the task-local connection cache — SP leases
reuse the cached SP connection; OBO leases reuse the cached OBO connection
exactly when the token matches; a different token yields a fresh one-shot
connection that never replaces the cached entry and is closed (cache
untouched) on exit; every lease returns a connection created under exactly
the requested identity (never the other kind); and well-formedness is
preserved by entering and exiting leases. -/
theorem connection_pool_identity_rules (st : PoolLocal) (hWF : PoolWF st) :
    (∀ c, st.sp_conn = some c → get_connection_enter st Option.none = ⟨c, st, .reused⟩)
    ∧ (∀ c tk, st.obo_conn = some c → st.obo_token = some tk →
        get_connection_enter st (some tk) = ⟨c, st, .reused⟩)
    ∧ (∀ c tk, st.obo_conn = some c → st.obo_token ≠ some tk →
        (get_connection_enter st (some tk)).kind = .createdOneShot
        ∧ (get_connection_enter st (some tk)).during.obo_conn = st.obo_conn
        ∧ (get_connection_enter st (some tk)).during.obo_token = st.obo_token
        ∧ (get_connection_enter st (some tk)).during.sp_conn = st.sp_conn
        ∧ (get_connection_enter st (some tk)).conn ≠ c
        ∧ get_connection_exit (get_connection_enter st (some tk))
            (get_connection_enter st (some tk)).during
          = (get_connection_enter st (some tk)).during)
    ∧ (∀ token, (get_connection_enter st token).conn.authToken = token)
    ∧ (∀ token, PoolWF (get_connection_enter st token).during)
    ∧ (∀ r st2, PoolWF st2 → PoolWF (get_connection_exit r st2)) := by
  obtain ⟨hsp, hobo⟩ := hWF
  refine ⟨?_, ?_, ?_, ?_, ?_, ?_⟩
  · intro c hc
    simp [get_connection_enter, hc]
  · intro c tk hc ht
    simp [get_connection_enter, hc, ht]
  · intro c tk hc hne
    obtain ⟨-, hlt⟩ := hobo c hc
    refine ⟨?_, ?_, ?_, ?_, ?_, ?_⟩ <;>
      simp [get_connection_enter, get_connection_exit, hc, hne]
    intro heq
    rw [← heq] at hlt
    exact absurd hlt (by simp)
  · intro token
    match token with
    | Option.none =>
      match hc : st.sp_conn with
      | some c =>
        obtain ⟨hat, -⟩ := hsp c hc
        simp [get_connection_enter, hc, hat]
      | Option.none => simp [get_connection_enter, hc]
    | some tk =>
      match hc : st.obo_conn with
      | some c =>
        by_cases ht : st.obo_token = some tk
        · obtain ⟨hat, -⟩ := hobo c hc
          simp [get_connection_enter, hc, ht, hat]
        · simp [get_connection_enter, hc, ht]
      | Option.none => simp [get_connection_enter, hc]
  · intro token
    match token with
    | Option.none =>
      match hc : st.sp_conn with
      | some c =>
        simp only [get_connection_enter, hc]
        exact ⟨hsp, hobo⟩
      | Option.none =>
        simp only [get_connection_enter, hc]
        constructor
        · intro c2 hc2
          simp at hc2
          simp [← hc2]
        · intro c2 hc2
          simp at hc2
          obtain ⟨hat, hlt⟩ := hobo c2 hc2
          exact ⟨hat, Nat.lt_succ_of_lt hlt⟩
    | some tk =>
      match hc : st.obo_conn with
      | some c =>
        by_cases ht : st.obo_token = some tk
        · simp only [get_connection_enter, hc, ht, if_pos rfl]
          exact ⟨hsp, hobo⟩
        · simp only [get_connection_enter, hc, if_neg ht]
          constructor
          · intro c2 hc2
            simp at hc2
            obtain ⟨hat, hlt⟩ := hsp c2 hc2
            exact ⟨hat, Nat.lt_succ_of_lt hlt⟩
          · intro c2 hc2
            simp at hc2
            obtain ⟨hat, hlt⟩ := hobo c hc
            exact ⟨hc2 ▸ hat, hc2 ▸ Nat.lt_succ_of_lt hlt⟩
      | Option.none =>
        simp only [get_connection_enter, hc]
        constructor
        · intro c2 hc2
          simp at hc2
          obtain ⟨hat, hlt⟩ := hsp c2 hc2
          exact ⟨hat, Nat.lt_succ_of_lt hlt⟩
        · intro c2 hc2
          simp at hc2
          simp [← hc2]
  · intro r st2 h2
    obtain ⟨hsp2, hobo2⟩ := h2
    match hk : r.kind with
    | .reused => simpa [get_connection_exit, hk] using ⟨hsp2, hobo2⟩
    | .createdOneShot => simpa [get_connection_exit, hk] using ⟨hsp2, hobo2⟩
    | .createdCached =>
      match hat : r.conn.authToken with
      | Option.none =>
        simp only [get_connection_exit, hk, hat]
        constructor
        · intro c2 hc2
          simp at hc2
        · intro c2 hc2
          exact hobo2 c2 hc2
      | some tk =>
        simp only [get_connection_exit, hk, hat]
        constructor
        · intro c2 hc2
          exact hsp2 c2 hc2
        · intro c2 hc2
          simp at hc2

/-- Witness for C7 at a concrete cached state: SP connection 0 cached, OBO
connection 1 cached under token `tokA`. -/
theorem connection_pool_identity_rules_witness :
    PoolWF ⟨some ⟨0, Option.none⟩, some ⟨1, some "tokA"⟩, some "tokA", 2⟩
    ∧ (get_connection_enter ⟨some ⟨0, Option.none⟩, some ⟨1, some "tokA"⟩, some "tokA", 2⟩
        Option.none
        = ⟨⟨0, Option.none⟩, ⟨some ⟨0, Option.none⟩, some ⟨1, some "tokA"⟩, some "tokA", 2⟩,
           .reused⟩
      ∧ get_connection_enter ⟨some ⟨0, Option.none⟩, some ⟨1, some "tokA"⟩, some "tokA", 2⟩
          (some "tokA")
        = ⟨⟨1, some "tokA"⟩, ⟨some ⟨0, Option.none⟩, some ⟨1, some "tokA"⟩, some "tokA", 2⟩,
           .reused⟩
      ∧ (get_connection_enter ⟨some ⟨0, Option.none⟩, some ⟨1, some "tokA"⟩, some "tokA", 2⟩
          (some "tokB")).kind = LeaseKind.createdOneShot
      ∧ (get_connection_enter ⟨some ⟨0, Option.none⟩, some ⟨1, some "tokA"⟩, some "tokA", 2⟩
          (some "tokB")).during.obo_conn = some ⟨1, some "tokA"⟩
      ∧ (get_connection_enter ⟨some ⟨0, Option.none⟩, some ⟨1, some "tokA"⟩, some "tokA", 2⟩
          (some "tokB")).conn.authToken = some "tokB") := by
  have hWF : PoolWF ⟨some ⟨0, Option.none⟩, some ⟨1, some "tokA"⟩, some "tokA", 2⟩ := by
    constructor
    · intro c hc
      simp at hc
      simp [← hc]
    · intro c hc
      simp at hc
      simp [← hc]
  have h := connection_pool_identity_rules _ hWF
  refine ⟨hWF, h.1 _ rfl, h.2.1 _ "tokA" rfl rfl, ?_, ?_, ?_⟩
  · exact (h.2.2.1 ⟨1, some "tokA"⟩ "tokB" rfl (by simp)).1
  · exact (h.2.2.1 ⟨1, some "tokA"⟩ "tokB" rfl (by simp)).2.1
  · exact h.2.2.2.1 (some "tokB")

/-! ## `src/metadata/models.py`, `cache.py`, `schema.py` — the hybrid schema cache -/

/-- Generic association-list lookup (Python dict get). -/
def alookup {α : Type} (m : List (String × α)) (k : String) : Option α :=
  (m.find? (fun e => e.1 = k)).map (·.2)

/-- Dict assignment (first binding wins on lookup). -/
def aset {α : Type} (m : List (String × α)) (k : String) (v : α) : List (String × α) :=
  (k, v) :: m

/-- Dict deletion (`pop` / file unlink): drop every binding of the key. -/
def aerase {α : Type} (m : List (String × α)) (k : String) : List (String × α) :=
  m.filter (fun e => !(e.1 = k))

theorem alookup_aset_self {α : Type} (m : List (String × α)) (k : String) (v : α) :
    alookup (aset m k v) k = some v := by
  simp [alookup, aset, List.find?]

theorem alookup_aerase_self {α : Type} (m : List (String × α)) (k : String) :
    alookup (aerase m k) k = Option.none := by
  induction m with
  | nil => rfl
  | cons hd tl ih =>
    by_cases hk : hd.1 = k
    · simp only [aerase, List.filter, hk]
      simp only [aerase] at ih
      exact ih
    · simp only [aerase, List.filter, hk]
      simp only [Bool.not_false, alookup, List.find?, decide_eq_true_eq, hk]
      simp only [alookup, aerase] at ih
      exact ih

/-- `TableSchema` (columns elided; `fetched_at` is the `datetime.now()` tick
at fetch time). -/
structure TableSchemaM where
  catalog : String
  schema : String
  table : String
  fetched_at : Int
deriving DecidableEq, Repr

/-- `SchemaCacheEntry` with its TTL bookkeeping. -/
structure SchemaCacheEntryM where
  schema : TableSchemaM
  cached_at : Int
  ttl_seconds : Int
deriving DecidableEq, Repr

/-- `SchemaCacheEntry.is_expired` at the current tick. -/
def SchemaCacheEntryM.is_expired (e : SchemaCacheEntryM) (now : Int) : Bool :=
  now - e.cached_at > e.ttl_seconds

/-- The two cache tiers: the in-memory map and the JSON files on disk. -/
structure SchemaCacheState where
  memory : List (String × SchemaCacheEntryM)
  fileStore : List (String × TableSchemaM)

/-- The file-tier fallback of `SchemaCache.get`: an unexpired file entry is
promoted into memory (with `cached_at = fetched_at`) and returned. -/
def cache_get_file (ttl : Int) (st : SchemaCacheState) (ref : String) (now : Int) :
    Option TableSchemaM × SchemaCacheState :=
  match alookup st.fileStore ref with
  | some sch =>
    if now - sch.fetched_at ≤ ttl then
      (some sch, { st with memory := aset st.memory ref ⟨sch, sch.fetched_at, ttl⟩ })
    else (Option.none, st)
  | Option.none => (Option.none, st)

/-- `SchemaCache.get`: memory first (TTL-checked), then file. -/
def SchemaCache.get (ttl : Int) (st : SchemaCacheState) (ref : String) (now : Int) :
    Option TableSchemaM × SchemaCacheState :=
  match alookup st.memory ref with
  | some entry =>
    if entry.is_expired now then cache_get_file ttl st ref now
    else (some entry.schema, st)
  | Option.none => cache_get_file ttl st ref now

/-- `SchemaCache.set`: store in memory (stamped now) and write the file. -/
def SchemaCache.set (ttl : Int) (st : SchemaCacheState) (ref : String)
    (sch : TableSchemaM) (now : Int) : SchemaCacheState :=
  { memory := aset st.memory ref ⟨sch, now, ttl⟩
    fileStore := aset st.fileStore ref sch }

/-- `SchemaCache.invalidate`: drop both tiers. -/
def SchemaCache.invalidate (st : SchemaCacheState) (ref : String) : SchemaCacheState :=
  { memory := aerase st.memory ref
    fileStore := aerase st.fileStore ref }

/-- `SchemaProvider._fetch_schema` (the information_schema round-trip):
returns a `TableSchema` stamped `fetched_at = now`. -/
def fetch_schema (ref : String) (now : Int) : TableSchemaM :=
  match (splitDots ref.data).map (fun g => String.mk g) with
  | [c, s, t] => ⟨c, s, t, now⟩
  | _ => ⟨"", "", "", now⟩

/-- `SchemaProvider.get_table_schema`: cached or fetched (the single-flight
lock re-check coincides with the first check in this sequential embedding).
The boolean records whether a fresh fetch was performed. -/
def SchemaProvider.get_table_schema (ttl : Int) (st : SchemaCacheState) (ref : String)
    (now : Int) : TableSchemaM × SchemaCacheState × Bool :=
  match SchemaCache.get ttl st ref now with
  | (some sch, st1) => (sch, st1, false)
  | (Option.none, st1) =>
    let sch := fetch_schema ref now
    (sch, SchemaCache.set ttl st1 ref sch now, true)

/-- `SchemaProvider.invalidate_table_schema`. -/
def SchemaProvider.invalidate_table_schema (st : SchemaCacheState) (ref : String) :
    SchemaCacheState :=
  SchemaCache.invalidate st ref

/-- Cache well-formedness: memory entries carry the provider's TTL and were
stamped no earlier than their schema's fetch tick. -/
def CacheWF (ttl : Int) (st : SchemaCacheState) : Prop :=
  ∀ ref e, alookup st.memory ref = some e →
    e.schema.fetched_at ≤ e.cached_at ∧ e.ttl_seconds = ttl

theorem fetch_schema_fetched_at (ref : String) (now : Int) :
    (fetch_schema ref now).fetched_at = now := by
  unfold fetch_schema
  split <;> rfl

/-- After any `get`, the returned schema sits in the memory tier with the
provider TTL and a stamp at or after its fetch tick. -/
theorem provider_get_caches (ttl : Int) (st : SchemaCacheState) (ref : String) (now : Int)
    (hWF : CacheWF ttl st) :
    ∃ e, alookup (SchemaProvider.get_table_schema ttl st ref now).2.1.memory ref = some e
      ∧ e.schema = (SchemaProvider.get_table_schema ttl st ref now).1
      ∧ e.ttl_seconds = ttl
      ∧ (SchemaProvider.get_table_schema ttl st ref now).1.fetched_at ≤ e.cached_at := by
  rcases hm : alookup st.memory ref with _ | e
  · rcases hf : alookup st.fileStore ref with _ | sch
    · have heq : SchemaProvider.get_table_schema ttl st ref now =
          (fetch_schema ref now, SchemaCache.set ttl st ref (fetch_schema ref now) now, true) := by
        simp [SchemaProvider.get_table_schema, SchemaCache.get, cache_get_file, hm, hf]
      rw [heq]
      exact ⟨⟨fetch_schema ref now, now, ttl⟩,
        by simp [SchemaCache.set, alookup_aset_self], rfl, rfl,
        by simp [fetch_schema_fetched_at]⟩
    · by_cases hfresh : now - sch.fetched_at ≤ ttl
      · have heq : SchemaProvider.get_table_schema ttl st ref now =
            (sch, { st with memory := aset st.memory ref ⟨sch, sch.fetched_at, ttl⟩ }, false) := by
          simp [SchemaProvider.get_table_schema, SchemaCache.get, cache_get_file, hm, hf, hfresh]
        rw [heq]
        exact ⟨⟨sch, sch.fetched_at, ttl⟩, by simp [alookup_aset_self], rfl, rfl, le_refl _⟩
      · have heq : SchemaProvider.get_table_schema ttl st ref now =
            (fetch_schema ref now, SchemaCache.set ttl st ref (fetch_schema ref now) now, true) := by
          simp [SchemaProvider.get_table_schema, SchemaCache.get, cache_get_file, hm, hf, hfresh]
        rw [heq]
        exact ⟨⟨fetch_schema ref now, now, ttl⟩,
          by simp [SchemaCache.set, alookup_aset_self], rfl, rfl,
          by simp [fetch_schema_fetched_at]⟩
  · by_cases hexp : e.is_expired now
    · rcases hf : alookup st.fileStore ref with _ | sch
      · have heq : SchemaProvider.get_table_schema ttl st ref now =
            (fetch_schema ref now, SchemaCache.set ttl st ref (fetch_schema ref now) now, true) := by
          simp [SchemaProvider.get_table_schema, SchemaCache.get, cache_get_file, hm, hf, hexp]
        rw [heq]
        exact ⟨⟨fetch_schema ref now, now, ttl⟩,
          by simp [SchemaCache.set, alookup_aset_self], rfl, rfl,
          by simp [fetch_schema_fetched_at]⟩
      · by_cases hfresh : now - sch.fetched_at ≤ ttl
        · have heq : SchemaProvider.get_table_schema ttl st ref now =
              (sch, { st with memory := aset st.memory ref ⟨sch, sch.fetched_at, ttl⟩ }, false) := by
            simp [SchemaProvider.get_table_schema, SchemaCache.get, cache_get_file,
              hm, hf, hexp, hfresh]
          rw [heq]
          exact ⟨⟨sch, sch.fetched_at, ttl⟩, by simp [alookup_aset_self], rfl, rfl, le_refl _⟩
        · have heq : SchemaProvider.get_table_schema ttl st ref now =
              (fetch_schema ref now, SchemaCache.set ttl st ref (fetch_schema ref now) now, true) := by
            simp [SchemaProvider.get_table_schema, SchemaCache.get, cache_get_file,
              hm, hf, hexp, hfresh]
          rw [heq]
          exact ⟨⟨fetch_schema ref now, now, ttl⟩,
            by simp [SchemaCache.set, alookup_aset_self], rfl, rfl,
            by simp [fetch_schema_fetched_at]⟩
    · obtain ⟨hle, httl⟩ := hWF ref e hm
      have heq : SchemaProvider.get_table_schema ttl st ref now = (e.schema, st, false) := by
        simp [SchemaProvider.get_table_schema, SchemaCache.get, hm, hexp]
      rw [heq]
      exact ⟨e, hm, rfl, httl, hle⟩

/-- An unexpired memory hit returns the cached schema and leaves the state
untouched (no fetch). -/
theorem provider_get_memory_hit (ttl : Int) (st : SchemaCacheState) (ref : String)
    (now : Int) (e : SchemaCacheEntryM)
    (hm : alookup st.memory ref = some e) (hexp : e.is_expired now = false) :
    SchemaProvider.get_table_schema ttl st ref now = (e.schema, st, false) := by
  simp [SchemaProvider.get_table_schema, SchemaCache.get, hm, hexp]

/-- C9: for a fixed table, a second `get` within the cache TTL returns the
same `fetched_at` without refetching; `invalidate` drops both the memory
and the file tier; and the next `get` after an invalidation performs a
fresh fetch whose `fetched_at` (the strictly later clock tick `t3`) is
strictly greater than the first one. -/
theorem schema_cache_ttl_roundtrip (ttl : Int) (st : SchemaCacheState) (ref : String)
    (t1 t2 t3 : Int) (hWF : CacheWF ttl st)
    (hTTL : t2 ≤ (SchemaProvider.get_table_schema ttl st ref t1).1.fetched_at + ttl)
    (hPast : (SchemaProvider.get_table_schema ttl st ref t1).1.fetched_at ≤ t1)
    (h13 : t1 < t3) :
    (SchemaProvider.get_table_schema ttl
        (SchemaProvider.get_table_schema ttl st ref t1).2.1 ref t2).1.fetched_at
      = (SchemaProvider.get_table_schema ttl st ref t1).1.fetched_at
    ∧ (SchemaProvider.get_table_schema ttl
        (SchemaProvider.get_table_schema ttl st ref t1).2.1 ref t2).2.2 = false
    ∧ alookup (SchemaProvider.invalidate_table_schema
        (SchemaProvider.get_table_schema ttl
          (SchemaProvider.get_table_schema ttl st ref t1).2.1 ref t2).2.1 ref).memory ref
      = Option.none
    ∧ alookup (SchemaProvider.invalidate_table_schema
        (SchemaProvider.get_table_schema ttl
          (SchemaProvider.get_table_schema ttl st ref t1).2.1 ref t2).2.1 ref).fileStore ref
      = Option.none
    ∧ (SchemaProvider.get_table_schema ttl
        (SchemaProvider.invalidate_table_schema
          (SchemaProvider.get_table_schema ttl
            (SchemaProvider.get_table_schema ttl st ref t1).2.1 ref t2).2.1 ref) ref t3).2.2
      = true
    ∧ (SchemaProvider.get_table_schema ttl
        (SchemaProvider.invalidate_table_schema
          (SchemaProvider.get_table_schema ttl
            (SchemaProvider.get_table_schema ttl st ref t1).2.1 ref t2).2.1 ref) ref t3).1.fetched_at
      = t3
    ∧ (SchemaProvider.get_table_schema ttl st ref t1).1.fetched_at
      < (SchemaProvider.get_table_schema ttl
          (SchemaProvider.invalidate_table_schema
            (SchemaProvider.get_table_schema ttl
              (SchemaProvider.get_table_schema ttl st ref t1).2.1 ref t2).2.1 ref) ref t3).1.fetched_at := by
  obtain ⟨e, hmem, hesch, httl, hstamp⟩ := provider_get_caches ttl st ref t1 hWF
  have hexp2 : e.is_expired t2 = false := by
    unfold SchemaCacheEntryM.is_expired
    rw [httl]
    simp only [decide_eq_false_iff_not, not_lt]
    omega
  have h2 := provider_get_memory_hit ttl
    (SchemaProvider.get_table_schema ttl st ref t1).2.1 ref t2 e hmem hexp2
  refine ⟨?_, ?_, ?_, ?_, ?_, ?_, ?_⟩
  · rw [h2]
    exact congrArg TableSchemaM.fetched_at hesch
  · rw [h2]
  · rw [h2]
    simp [SchemaProvider.invalidate_table_schema, SchemaCache.invalidate, alookup_aerase_self]
  · rw [h2]
    simp [SchemaProvider.invalidate_table_schema, SchemaCache.invalidate, alookup_aerase_self]
  · rw [h2]
    simp [SchemaProvider.invalidate_table_schema, SchemaCache.invalidate,
      SchemaProvider.get_table_schema, SchemaCache.get, cache_get_file, alookup_aerase_self]
  · rw [h2]
    simp [SchemaProvider.invalidate_table_schema, SchemaCache.invalidate,
      SchemaProvider.get_table_schema, SchemaCache.get, cache_get_file, alookup_aerase_self,
      fetch_schema_fetched_at]
  · rw [h2]
    generalize hA : (SchemaProvider.get_table_schema ttl st ref t1).1.fetched_at = A at hPast ⊢
    simp [SchemaProvider.invalidate_table_schema, SchemaCache.invalidate,
      SchemaProvider.get_table_schema, SchemaCache.get, cache_get_file, alookup_aerase_self,
      fetch_schema_fetched_at]
    omega

/-- Witness for C9: empty cache, fetch at tick 100, re-read at 200 (within a
3600s TTL), invalidate, fresh fetch at 300. -/
theorem schema_cache_ttl_roundtrip_witness :
    (CacheWF 3600 ⟨[], []⟩
     ∧ (200 : Int) ≤ (SchemaProvider.get_table_schema 3600 ⟨[], []⟩ "c.s.t" 100).1.fetched_at + 3600
     ∧ (SchemaProvider.get_table_schema 3600 ⟨[], []⟩ "c.s.t" 100).1.fetched_at ≤ 100
     ∧ (100 : Int) < 300)
    ∧ ((SchemaProvider.get_table_schema 3600
          (SchemaProvider.get_table_schema 3600 ⟨[], []⟩ "c.s.t" 100).2.1 "c.s.t" 200).1.fetched_at
        = (SchemaProvider.get_table_schema 3600 ⟨[], []⟩ "c.s.t" 100).1.fetched_at
      ∧ (SchemaProvider.get_table_schema 3600
          (SchemaProvider.get_table_schema 3600 ⟨[], []⟩ "c.s.t" 100).2.1 "c.s.t" 200).2.2 = false
      ∧ alookup (SchemaProvider.invalidate_table_schema
          (SchemaProvider.get_table_schema 3600
            (SchemaProvider.get_table_schema 3600 ⟨[], []⟩ "c.s.t" 100).2.1 "c.s.t" 200).2.1
          "c.s.t").memory "c.s.t" = Option.none
      ∧ alookup (SchemaProvider.invalidate_table_schema
          (SchemaProvider.get_table_schema 3600
            (SchemaProvider.get_table_schema 3600 ⟨[], []⟩ "c.s.t" 100).2.1 "c.s.t" 200).2.1
          "c.s.t").fileStore "c.s.t" = Option.none
      ∧ (SchemaProvider.get_table_schema 3600
          (SchemaProvider.invalidate_table_schema
            (SchemaProvider.get_table_schema 3600
              (SchemaProvider.get_table_schema 3600 ⟨[], []⟩ "c.s.t" 100).2.1 "c.s.t" 200).2.1
            "c.s.t") "c.s.t" 300).2.2 = true
      ∧ (SchemaProvider.get_table_schema 3600
          (SchemaProvider.invalidate_table_schema
            (SchemaProvider.get_table_schema 3600
              (SchemaProvider.get_table_schema 3600 ⟨[], []⟩ "c.s.t" 100).2.1 "c.s.t" 200).2.1
            "c.s.t") "c.s.t" 300).1.fetched_at = 300
      ∧ (SchemaProvider.get_table_schema 3600 ⟨[], []⟩ "c.s.t" 100).1.fetched_at
        < (SchemaProvider.get_table_schema 3600
            (SchemaProvider.invalidate_table_schema
              (SchemaProvider.get_table_schema 3600
                (SchemaProvider.get_table_schema 3600 ⟨[], []⟩ "c.s.t" 100).2.1 "c.s.t" 200).2.1
              "c.s.t") "c.s.t" 300).1.fetched_at) :=
  ⟨⟨by intro r e h; simp [alookup] at h, by decide, by decide, by decide⟩,
   schema_cache_ttl_roundtrip 3600 ⟨[], []⟩ "c.s.t" 100 200 300
     (by intro r e h; simp [alookup] at h) (by decide) (by decide) (by decide)⟩

/- ===== infrastructure/rate_limit.py : SessionRateLimiter ===== -/

/-- The eviction loop `while timestamps and timestamps[0] <= cutoff: popleft()`:
drop leading timestamps at or before the cutoff, stop at the first one past it. -/
def rlEvict (cutoff : ℚ) : List ℚ → List ℚ
  | [] => []
  | t :: ts => if t ≤ cutoff then rlEvict cutoff ts else t :: ts

/-- One `check` step on a single session's deque: evict with
`cutoff = now - window`, reject if the surviving deque has reached
`max_requests`, otherwise append `now` and admit.  Returns
(admitted?, deque after the call) — evictions persist even on reject. -/
def rlCheck (m : Nat) (w : ℚ) (d : List ℚ) (now : ℚ) : Bool × List ℚ :=
  if m ≤ (rlEvict (now - w) d).length then (false, rlEvict (now - w) d)
  else (true, rlEvict (now - w) d ++ [now])

/-- `SessionRateLimiter` state: `_max_requests`, `_window_seconds`,
`_sessions` (dict session id → deque of monotonic timestamps). -/
structure RateLimiterState where
  max_requests : Nat
  window_seconds : ℚ
  sessions : List (String × List ℚ)

/-- `SessionRateLimiter.check`: a `None` session id is always allowed and
leaves the state untouched; otherwise the session's deque (created empty if
missing) is evicted/updated in place via `rlCheck`. -/
def SessionRateLimiter.check (st : RateLimiterState) (session_id : Option String) (now : ℚ) :
    Bool × RateLimiterState :=
  match session_id with
  | Option.none => (true, st)
  | Option.some sid =>
    ((rlCheck st.max_requests st.window_seconds ((alookup st.sessions sid).getD []) now).1,
     RateLimiterState.mk st.max_requests st.window_seconds
       (aset st.sessions sid
         (rlCheck st.max_requests st.window_seconds ((alookup st.sessions sid).getD []) now).2))

/-- Run `check` over a list of (session id, timestamp) events, collecting the
admitted events in order. -/
def limiterRun : RateLimiterState → List (Option String × ℚ) → List (Option String × ℚ)
  | _, [] => []
  | st, e :: rest =>
    if (SessionRateLimiter.check st e.1 e.2).1 then
      e :: limiterRun (SessionRateLimiter.check st e.1 e.2).2 rest
    else
      limiterRun (SessionRateLimiter.check st e.1 e.2).2 rest

/-- Same but on a single session's deque, collecting admitted timestamps. -/
def rlAdmitted (m : Nat) (w : ℚ) : List ℚ → List ℚ → List ℚ
  | _, [] => []
  | d, t :: rest =>
    if (rlCheck m w d t).1 then t :: rlAdmitted m w (rlCheck m w d t).2 rest
    else rlAdmitted m w (rlCheck m w d t).2 rest

/-- The timestamps of a given session's events, in order. -/
def sessTimes (s : String) (evs : List (Option String × ℚ)) : List ℚ :=
  evs.filterMap (fun e => if e.1 = some s then some e.2 else none)

/-- How many timestamps fall in the half-open window (a, a + w]. -/
def countIn (a w : ℚ) (l : List ℚ) : Nat :=
  l.countP (fun t => decide (a < t) && decide (t ≤ a + w))

theorem alookup_aset_ne {α : Type} (m : List (String × α)) (k k' : String) (v : α)
    (h : k' ≠ k) : alookup (aset m k v) k' = alookup m k' := by
  simp [alookup, aset, List.find?, Ne.symm h]

theorem countIn_le_length (a w : ℚ) (l : List ℚ) : countIn a w l ≤ l.length :=
  List.countP_le_length _

theorem countIn_rlEvict (a w cutoff : ℚ) (hc : cutoff ≤ a) :
    ∀ d : List ℚ, countIn a w (rlEvict cutoff d) = countIn a w d := by
  intro d
  induction d with
  | nil => rfl
  | cons x xs ih =>
    by_cases hx : x ≤ cutoff
    · have hnot : ¬ a < x := by linarith
      have h1 : rlEvict cutoff (x :: xs) = rlEvict cutoff xs := by
        simp [rlEvict, hx]
      rw [h1, ih]
      simp [countIn, List.countP_cons, hnot]
    · simp [rlEvict, hx]

theorem rlAdmitted_subset (m : Nat) (w : ℚ) :
    ∀ (c d : List ℚ) (x : ℚ), x ∈ rlAdmitted m w d c → x ∈ c := by
  intro c
  induction c with
  | nil => intro d x hx; simp [rlAdmitted] at hx
  | cons t rest ih =>
    intro d x hx
    simp only [rlAdmitted] at hx
    by_cases hb : (rlCheck m w d t).1
    · rw [if_pos hb] at hx
      rcases List.mem_cons.mp hx with h | h
      · exact h ▸ List.mem_cons_self _ _
      · exact List.mem_cons_of_mem _ (ih _ _ h)
    · rw [if_neg hb] at hx
      exact List.mem_cons_of_mem _ (ih _ _ hx)

theorem rlAdmitted_bound (m : Nat) (w a : ℚ) :
    ∀ c : List ℚ, List.Pairwise (· ≤ ·) c → ∀ d : List ℚ,
      countIn a w d ≤ m →
      countIn a w (rlAdmitted m w d c) + countIn a w d ≤ m := by
  intro c
  induction c with
  | nil => intro _ d hd; simpa [rlAdmitted, countIn] using hd
  | cons t rest ih =>
    intro hp d hd
    have hhd : ∀ x ∈ rest, t ≤ x := (List.pairwise_cons.mp hp).1
    have htl : List.Pairwise (· ≤ ·) rest := (List.pairwise_cons.mp hp).2
    by_cases hwin : t ≤ a + w
    · have hkept : countIn a w (rlEvict (t - w) d) = countIn a w d :=
        countIn_rlEvict a w (t - w) (by linarith) d
      by_cases hrej : m ≤ (rlEvict (t - w) d).length
      · have hchk : rlCheck m w d t = (false, rlEvict (t - w) d) := by
          simp [rlCheck, hrej]
        have hrun : rlAdmitted m w d (t :: rest)
            = rlAdmitted m w (rlEvict (t - w) d) rest := by
          simp [rlAdmitted, hchk]
        rw [hrun]
        have hih := ih htl (rlEvict (t - w) d) (by rw [hkept]; exact hd)
        omega
      · have hchk : rlCheck m w d t = (true, rlEvict (t - w) d ++ [t]) := by
          simp [rlCheck, hrej]
        have hrun : rlAdmitted m w d (t :: rest)
            = t :: rlAdmitted m w (rlEvict (t - w) d ++ [t]) rest := by
          simp [rlAdmitted, hchk]
        rw [hrun]
        have hlen : countIn a w (rlEvict (t - w) d) < m :=
          lt_of_le_of_lt (countIn_le_length a w _) (lt_of_not_le hrej)
        by_cases hin : a < t
        · have hnew : countIn a w (rlEvict (t - w) d ++ [t])
              = countIn a w (rlEvict (t - w) d) + 1 := by
            simp [countIn, List.countP_append, List.countP_cons, hin, hwin]
        
          have hih := ih htl (rlEvict (t - w) d ++ [t]) (by omega)
          have hcons : countIn a w (t :: rlAdmitted m w (rlEvict (t - w) d ++ [t]) rest)
              = countIn a w (rlAdmitted m w (rlEvict (t - w) d ++ [t]) rest) + 1 := by
            simp [countIn, List.countP_cons, hin, hwin]
          omega
        · have hnew : countIn a w (rlEvict (t - w) d ++ [t])
              = countIn a w (rlEvict (t - w) d) := by
            simp [countIn, List.countP_append, List.countP_cons, hin]
          have hih := ih htl (rlEvict (t - w) d ++ [t]) (by omega)
          have hcons : countIn a w (t :: rlAdmitted m w (rlEvict (t - w) d ++ [t]) rest)
              = countIn a w (rlAdmitted m w (rlEvict (t - w) d ++ [t]) rest) := by
            simp [countIn, List.countP_cons, hin]
          omega
    · have hzero : countIn a w (rlAdmitted m w d (t :: rest)) = 0 := by
        simp only [countIn]
        apply List.countP_eq_zero.mpr
        intro x hx
        have hxc := rlAdmitted_subset m w (t :: rest) d x hx
        have hxt : t ≤ x := by
          rcases List.mem_cons.mp hxc with h | h
          · exact h ▸ le_refl _
          · exact hhd x h
        have hxw : ¬ x ≤ a + w := by
          have := lt_of_not_le hwin
          linarith
        simp [hxw]
      omega

theorem sessTimes_pairwise (s : String) :
    ∀ evs : List (Option String × ℚ),
      List.Pairwise (fun e f : Option String × ℚ => e.2 ≤ f.2) evs →
      List.Pairwise (· ≤ ·) (sessTimes s evs) := by
  intro evs
  induction evs with
  | nil => intro _; simp [sessTimes]
  | cons e rest ih =>
    intro hp
    rcases List.pairwise_cons.mp hp with ⟨hhd, htl⟩
    by_cases he : e.1 = some s
    · have h1 : sessTimes s (e :: rest) = e.2 :: sessTimes s rest := by
        simp [sessTimes, he]
      rw [h1]
      refine List.pairwise_cons.mpr ⟨?_, ih htl⟩
      intro y hy
      simp only [sessTimes, List.mem_filterMap] at hy
      obtain ⟨f, hf, hfy⟩ := hy
      by_cases hc : f.1 = some s
      · rw [if_pos hc] at hfy
        have : f.2 = y := by injection hfy
        exact this ▸ hhd f hf
      · rw [if_neg hc] at hfy
        exact absurd hfy (by simp)
    · have h1 : sessTimes s (e :: rest) = sessTimes s rest := by
        simp [sessTimes, he]
      rw [h1]
      exact ih htl

theorem limiterRun_proj (s : String) :
    ∀ (evs : List (Option String × ℚ)) (st : RateLimiterState),
      sessTimes s (limiterRun st evs)
        = rlAdmitted st.max_requests st.window_seconds
            ((alookup st.sessions s).getD []) (sessTimes s evs) := by
  intro evs
  induction evs with
  | nil => intro st; rfl
  | cons e rest ih =>
    intro st
    rcases e with ⟨sid, te⟩
    rcases sid with _ | u
    · have h1 : limiterRun st ((Option.none, te) :: rest)
          = (Option.none, te) :: limiterRun st rest := by
        simp [limiterRun, SessionRateLimiter.check]
      rw [h1]
      have h2 : sessTimes s ((Option.none, te) :: limiterRun st rest)
          = sessTimes s (limiterRun st rest) := by
        simp [sessTimes]
      have h3 : sessTimes s ((Option.none, te) :: rest) = sessTimes s rest := by
        simp [sessTimes]
      rw [h2, h3]
      exact ih st
    · by_cases hu : u = s
      · subst hu
        have hlook : alookup (SessionRateLimiter.check st (some u) te).2.sessions u
            = some (rlCheck st.max_requests st.window_seconds
                ((alookup st.sessions u).getD []) te).2 := by
          simp only [SessionRateLimiter.check]
          exact alookup_aset_self _ _ _
        by_cases hb : (rlCheck st.max_requests st.window_seconds
            ((alookup st.sessions u).getD []) te).1
        · have hcb : (SessionRateLimiter.check st (some u) te).1 = true := hb
          have h1 : limiterRun st ((some u, te) :: rest)
              = (some u, te) :: limiterRun (SessionRateLimiter.check st (some u) te).2 rest := by
            simp [limiterRun, hcb]
          rw [h1]
          have h2 : sessTimes u ((some u, te)
                :: limiterRun (SessionRateLimiter.check st (some u) te).2 rest)
              = te :: sessTimes u (limiterRun (SessionRateLimiter.check st (some u) te).2 rest) := by
            simp [sessTimes]
          rw [h2, ih, hlook]
          have h3 : sessTimes u ((some u, te) :: rest) = te :: sessTimes u rest := by
            simp [sessTimes]
          rw [h3]
          have h4 : rlAdmitted st.max_requests st.window_seconds
                ((alookup st.sessions u).getD []) (te :: sessTimes u rest)
              = te :: rlAdmitted st.max_requests st.window_seconds
                  (rlCheck st.max_requests st.window_seconds
                    ((alookup st.sessions u).getD []) te).2 (sessTimes u rest) := by
            simp [rlAdmitted, hb]
          rw [h4]
          rfl
        · have hcb : (SessionRateLimiter.check st (some u) te).1 = false := by
            simpa using hb
          have h1 : limiterRun st ((some u, te) :: rest)
              = limiterRun (SessionRateLimiter.check st (some u) te).2 rest := by
            simp [limiterRun, hcb]
          rw [h1, ih, hlook]
          have h3 : sessTimes u ((some u, te) :: rest) = te :: sessTimes u rest := by
            simp [sessTimes]
          rw [h3]
          have h4 : rlAdmitted st.max_requests st.window_seconds
                ((alookup st.sessions u).getD []) (te :: sessTimes u rest)
              = rlAdmitted st.max_requests st.window_seconds
                  (rlCheck st.max_requests st.window_seconds
                    ((alookup st.sessions u).getD []) te).2 (sessTimes u rest) := by
            simp [rlAdmitted, hb]
          rw [h4]
          rfl
      · have hlook : alookup (SessionRateLimiter.check st (some u) te).2.sessions s
            = alookup st.sessions s :=
          alookup_aset_ne _ _ _ _ (fun h => hu h.symm)
        have hne : (some u : Option String) ≠ some s := by
          intro h
          exact hu (Option.some.injEq u s ▸ h)
        have h3 : sessTimes s ((some u, te) :: rest) = sessTimes s rest := by
          simp [sessTimes, hu]
        by_cases hb : (SessionRateLimiter.check st (some u) te).1
        · have h1 : limiterRun st ((some u, te) :: rest)
              = (some u, te) :: limiterRun (SessionRateLimiter.check st (some u) te).2 rest := by
            simp [limiterRun, hb]
          rw [h1]
          have h2 : sessTimes s ((some u, te)
                :: limiterRun (SessionRateLimiter.check st (some u) te).2 rest)
              = sessTimes s (limiterRun (SessionRateLimiter.check st (some u) te).2 rest) := by
            simp [sessTimes, hu]
          rw [h2, ih, hlook, h3]
          rfl
        · have h1 : limiterRun st ((some u, te) :: rest)
              = limiterRun (SessionRateLimiter.check st (some u) te).2 rest := by
            simp [limiterRun, hb]
          rw [h1, ih, hlook, h3]
          rfl

/-- C6: over any event trace with nondecreasing monotonic timestamps, and any
window position `a`, the session-`s` requests admitted by
`SessionRateLimiter.check` with timestamps inside `(a, a + window_seconds]`
never exceed `max_requests` (given the session's starting deque does not
already overfill that window — in particular from the fresh empty state);
and `check(None)` always returns True. -/
theorem rate_limiter_window_bound (st : RateLimiterState)
    (evs : List (Option String × ℚ)) (s : String) (a : ℚ)
    (hsorted : List.Pairwise (fun e f : Option String × ℚ => e.2 ≤ f.2) evs)
    (hinit : countIn a st.window_seconds ((alookup st.sessions s).getD [])
      ≤ st.max_requests) :
    countIn a st.window_seconds (sessTimes s (limiterRun st evs)) ≤ st.max_requests
    ∧ ∀ now : ℚ, (SessionRateLimiter.check st Option.none now).1 = true := by
  constructor
  · rw [limiterRun_proj]
    have hps : List.Pairwise (· ≤ ·) (sessTimes s evs) := sessTimes_pairwise s evs hsorted
    have hb := rlAdmitted_bound st.max_requests st.window_seconds a (sessTimes s evs) hps
      ((alookup st.sessions s).getD []) hinit
    omega
  · intro _
    rfl

/-- Witness for C6: fresh limiter with max_requests = 2, window 10; session
"s" fires at 1, 2, 3 (third rejected) and a heartbeat (None) at 4. -/
theorem rate_limiter_window_bound_witness :
    (List.Pairwise (fun e f : Option String × ℚ => e.2 ≤ f.2)
        [(some "s", (1 : ℚ)), (some "s", 2), (some "s", 3), (Option.none, 4)]
     ∧ countIn 0 (10 : ℚ)
        ((alookup (RateLimiterState.mk 2 10 []).sessions "s").getD [])
       ≤ (RateLimiterState.mk 2 10 ([] : List (String × List ℚ))).max_requests)
    ∧ (countIn 0 10 (sessTimes "s" (limiterRun (RateLimiterState.mk 2 10 [])
          [(some "s", (1 : ℚ)), (some "s", 2), (some "s", 3), (Option.none, 4)])) ≤ 2
       ∧ ∀ now : ℚ,
          (SessionRateLimiter.check (RateLimiterState.mk 2 10 []) Option.none now).1 = true) :=
  ⟨⟨by decide, by decide⟩,
   rate_limiter_window_bound (RateLimiterState.mk 2 10 [])
     [(some "s", (1 : ℚ)), (some "s", 2), (some "s", 3), (Option.none, 4)] "s" 0
     (by decide) (by decide)⟩
